import Mathlib

/-!
The stone-server repository: the CSRF middleware (`labstack/echo/middleware/csrf.go`).

A shallow embedding of `CSRFWithConfig` and its helpers, followed by the
properties of the specification that concern it.

Modelling conventions
* A Go `string` is a finite sequence of bytes: `GoString = List Byte` with
  `Byte = Fin 256`.  String literals of the source are written `str "..."`,
  the UTF-8 bytes of the literal.
* A Go runtime panic (index out of range) is `none` in `Option`.
* The process-wide random source of `math/rand` is an explicit state `Rand`;
  the clock read by `time.Now()` is an explicit argument `now`.
* The `echo.Context` of a request is the record `Context`; the calls the
  middleware makes on it (`SetCookie`, `Set`, `Header().Add`) are state updates.
  The package `echo` itself is not among the sources: its types, constants and
  methods are modelled from the specification.
* The calls the middleware makes are also logged, in order, in a list of
  `Event`s that is returned next to the result, so that "is (not) invoked" can be
  stated.  The log is kept apart from the `Context`, which the downstream
  handler may change at will.
-/

namespace Stone

/-! ## Go strings -/

/-- A Go `byte` (`uint8`). -/
abbrev Byte := Fin 256

/-- A Go `string`: an immutable sequence of bytes. -/
abbrev GoString := List Byte

/-- The bytes of a string literal of the source (its UTF-8 encoding). -/
def str (s : String) : GoString := s.toUTF8.data.toList.map (fun b => b.val)

/-- Go's `strings.Split(s, sep)` for a separator `sep` of one byte: the pieces of
`s` between the occurrences of `sep`; a string without `sep` is its own single
piece, and the result is never empty. -/
def splitOn (sep : Byte) : GoString → List GoString
  | [] => [[]]
  | b :: bs =>
    if b = sep then [] :: splitOn sep bs
    else
      match splitOn sep bs with
      | [] => [[b]]
      | p :: ps => (b :: p) :: ps

/-- The one-byte separator `":"` of `strings.Split(config.TokenLookup, ":")`. -/
def colon : Byte := 58

/-! ## `math/rand`, `time`, `crypto/subtle` -/

/-- The state of the random source of `math/rand`: an arbitrary stream of
draws and the position of the next one. -/
structure Rand where
  draws : Nat → Nat
  pos : Nat

/-- Go's `rand.Int63()`: the next draw, a non-negative 63-bit integer, and the
advanced source. -/
def Rand.Int63 (r : Rand) : Nat × Rand :=
  (r.draws r.pos % 2 ^ 63, { r with pos := r.pos + 1 })

/-- A `time.Time`, in nanoseconds. -/
abbrev Time := Int

/-- A value reduced to the range of `int64` (two's complement wrap-around). -/
def wrapInt64 (x : Int) : Int := (x + 2 ^ 63) % 2 ^ 64 - 2 ^ 63

/-- Go's `time.Second`, a `time.Duration` (an `int64` count of nanoseconds). -/
def Second : Int := 1000000000

/-- The expression `time.Duration(n) * time.Second` of the source, computed in
`int64`. -/
def durationSeconds (n : Int) : Int := wrapInt64 (wrapInt64 n * Second)

/-- Go's `subtle.ConstantTimeByteEq(x, y)`:
`int((uint32(x^y) - 1) >> 31)`. -/
def ConstantTimeByteEq (x y : Byte) : Nat :=
  (((x.val ^^^ y.val) + 2 ^ 32 - 1) % 2 ^ 32) >>> 31

/-- The loop of `subtle.ConstantTimeCompare`: `v |= x[i] ^ y[i]` for every
index, in `uint8`. -/
def ctAccumulate (v : Nat) : List Byte → List Byte → Nat
  | a :: x, b :: y => ctAccumulate ((v ||| (a.val ^^^ b.val)) % 256) x y
  | _, _ => v

/-- Go's `subtle.ConstantTimeCompare(x, y)`: `0` at once when the lengths
differ, otherwise the accumulated difference compared with zero. -/
def ConstantTimeCompare (x y : List Byte) : Nat :=
  if x.length ≠ y.length then 0
  else ConstantTimeByteEq (Fin.ofNat (ctAccumulate 0 x y)) 0

/-! ## The `echo` framework, as far as the middleware uses it -/

/-- Modelled from the spec: the inbound request of echo, its method, and what the named
cookie, header, form field and query parameter hold (`none`: not present). -/
structure Request where
  Method : GoString
  cookie : GoString → Option GoString
  header : GoString → Option GoString
  form : GoString → Option GoString
  query : GoString → Option GoString

/-- Modelled from the spec: an `echo.Cookie` as the setters leave it. -/
structure Cookie where
  Name : GoString
  Value : GoString
  Path : GoString
  Domain : GoString
  Expires : Time
  Secure : Bool
  HTTPOnly : Bool
  deriving DecidableEq, Repr

/-- Modelled from the spec: the value of `new(echo.Cookie)`. -/
def Cookie.new : Cookie :=
  { Name := [], Value := [], Path := [], Domain := [], Expires := 0,
    Secure := false, HTTPOnly := false }

/-- Modelled from the spec: a value in the map handed to echo's `c.JSON`, an integer or
a string. -/
inductive JSONValue where
  | int (n : Int)
  | string (s : GoString)
  deriving DecidableEq, Repr

/-- Modelled from the spec: the body of a response written through echo, the fields of a
JSON object (by key), or a text. -/
inductive Body where
  | json (fields : List (GoString × JSONValue))
  | text (s : GoString)
  deriving DecidableEq, Repr

/-- Modelled from the spec: one response written by echo's `c.JSON` or `c.String`, its
status code and body. -/
structure Written where
  status : Int
  body : Body
  deriving DecidableEq, Repr

/-- Modelled from the spec: the `echo.Context` of one request, that is the request, the
key-value store of `Set`, the response header and the cookies set on the response (the
cookies are kept by the framework's cookie abstraction, apart from the header map),
whether the response is committed, and the responses written. -/
structure Context where
  request : Request
  store : GoString → Option GoString
  respHeader : GoString → List GoString
  respCookies : List Cookie
  committed : Bool := false
  written : List Written := []

/-- The non-nil values of the interface `error` in the repository:
`errors.New(msg)`, a `*echo.HTTPError` and a `*context.SError` pointing to a
struct, and the nil pointers of the types `*context.SError` and
`*echo.HTTPError` held in the interface. -/
inductive Error where
  | errorString (msg : GoString)
  | httpError (code : Nat) (message : GoString)
  | sError (code : Int) (msg : GoString)
  | sErrorNil
  | httpErrorNil
  deriving DecidableEq, Repr

/-- Modelled from the spec: an `echo.HandlerFunc`, `func(echo.Context) error`, the
context it leaves and the error it returns (`none` for `nil`). -/
abbrev HandlerFunc := Context → Context × Option Error

/-- Modelled from the spec: echo's `c.Cookie(name)`: the cookie's value, `none` when the
call returns an error (no readable cookie of that name). -/
def Context.Cookie (c : Context) (name : GoString) : Option GoString :=
  c.request.cookie name

/-- Modelled from the spec: echo's `c.Request().Header().Get(name)`: the empty string
for a header that is not present. -/
def Context.headerGet (c : Context) (name : GoString) : GoString :=
  (c.request.header name).getD []

/-- Modelled from the spec: echo's `c.FormValue(name)`: the empty string for a field
that is not present. -/
def Context.FormValue (c : Context) (name : GoString) : GoString :=
  (c.request.form name).getD []

/-- Modelled from the spec: echo's `c.QueryParam(name)`: the empty string for a
parameter that is not present. -/
def Context.QueryParam (c : Context) (name : GoString) : GoString :=
  (c.request.query name).getD []

/-- Modelled from the spec: echo's `c.SetCookie(cookie)`: one more cookie on the
response. -/
def Context.SetCookie (c : Context) (k : Stone.Cookie) : Context :=
  { c with respCookies := c.respCookies ++ [k] }

/-- Modelled from the spec: echo's `c.Set(key, val)`. -/
def Context.Set (c : Context) (key val : GoString) : Context :=
  { c with store := fun k => if k = key then some val else c.store k }

/-- Modelled from the spec: echo's `c.Response().Header().Add(key, val)`: `val` after
the values the header already has. -/
def Context.headerAdd (c : Context) (key val : GoString) : Context :=
  { c with respHeader := fun k => if k = key then c.respHeader k ++ [val] else c.respHeader k }

/-- Modelled from the spec: echo's `c.Response().Committed()`. -/
def Context.Committed (c : Context) : Bool := c.committed

/-- Modelled from the spec: echo's `c.JSON(code, i)` for a map `i`: one more response
written, with the fields of the map as JSON body; the response is committed. -/
def Context.JSON (c : Context) (code : Int) (fields : List (GoString × JSONValue)) : Context :=
  { c with committed := true, written := c.written ++ [{ status := code, body := Body.json fields }] }

/-- Modelled from the spec: echo's `c.String(code, s)`: one more response written, with
the text `s` as body; the response is committed. -/
def Context.String (c : Context) (code : Int) (s : GoString) : Context :=
  { c with committed := true, written := c.written ++ [{ status := code, body := Body.text s }] }

/-- Modelled from the spec: echo's `echo.NewHTTPError(code, msg)`. -/
def NewHTTPError (code : Nat) (msg : GoString) : Error := Error.httpError code msg

/-- Go's `http.StatusForbidden`. -/
def StatusForbidden : Nat := 403

/-- Modelled from the spec: echo's method constants `echo.GET`, `echo.HEAD`,
`echo.OPTIONS`, `echo.TRACE`. -/
def GET : GoString := str "GET"
def HEAD : GoString := str "HEAD"
def OPTIONS : GoString := str "OPTIONS"
def TRACE : GoString := str "TRACE"

/-- Modelled from the spec: echo's header names `echo.HeaderVary`, `echo.HeaderCookie`,
`echo.HeaderXCSRFToken`. -/
def HeaderVary : GoString := str "Vary"
def HeaderCookie : GoString := str "Cookie"
def HeaderXCSRFToken : GoString := str "X-CSRF-Token"

/-! ## `csrf.go` -/

/-- The struct `CSRFConfig`. -/
structure CSRFConfig where
  TokenLength : Nat
  TokenLookup : GoString
  ContextKey : GoString
  CookieName : GoString
  CookieDomain : GoString
  CookiePath : GoString
  CookieMaxAge : Int
  CookieSecure : Bool
  CookieHTTPOnly : Bool
  deriving DecidableEq, Repr

/-- The type `csrfTokenExtractor`, `func(echo.Context) (string, error)`. -/
abbrev csrfTokenExtractor := Context → Except Error GoString

/-- The variable `DefaultCSRFConfig`. -/
def DefaultCSRFConfig : CSRFConfig :=
  { TokenLength := 32
    TokenLookup := str "header:" ++ HeaderXCSRFToken
    ContextKey := str "csrf"
    CookieName := str "_csrf"
    CookieDomain := []
    CookiePath := []
    CookieMaxAge := 86400
    CookieSecure := false
    CookieHTTPOnly := false }

/-- The function `csrfTokenFromHeader`. -/
def csrfTokenFromHeader (header : GoString) : csrfTokenExtractor :=
  fun c => .ok (c.headerGet header)

/-- The function `csrfTokenFromForm`. -/
def csrfTokenFromForm (param : GoString) : csrfTokenExtractor :=
  fun c =>
    let token := c.FormValue param
    if token = [] then .error (Error.errorString (str "empty csrf token in form param"))
    else .ok token

/-- The function `csrfTokenFromQuery`. -/
def csrfTokenFromQuery (param : GoString) : csrfTokenExtractor :=
  fun c =>
    let token := c.QueryParam param
    if token = [] then .error (Error.errorString (str "empty csrf token in query param"))
    else .ok token

/-- The alphabet `chars` of `generateCSRFToken`. -/
def chars : GoString := str "abcdefghijklmnopqrstuvwxyzABCDEFGHIJKLMNOPQRSTUVWXYZ0123456789"

/-- The loop of `generateCSRFToken`: for each of the `n` positions, from the
first on, `chars[rand.Int63() % int64(len(chars))]`; `none` when that index is
out of range. -/
def generateLoop : Nat → Rand → Option (GoString × Rand)
  | 0, r => some ([], r)
  | n + 1, r =>
    match chars[r.Int63.1 % chars.length]? with
    | none => none
    | some b =>
      match generateLoop n r.Int63.2 with
      | none => none
      | some (bs, r2) => some (b :: bs, r2)

/-- The function `generateCSRFToken`, with the random source threaded through. -/
def generateCSRFToken (n : Nat) (rand : Rand) : Option (GoString × Rand) :=
  generateLoop n rand

/-- The function `validateCSRFToken`. -/
def validateCSRFToken (token clientToken : GoString) : Bool :=
  ConstantTimeCompare token clientToken == 1

/-- The calls of one run of the middleware's handler, in the order they are made. -/
inductive Event where
  | generate (token : GoString)
  | extract
  | validate (token clientToken : GoString)
  | setCookie (cookie : Cookie)
  | set (key val : GoString)
  | headerAdd (key val : GoString)
  | next
  deriving DecidableEq, Repr

/-- What one run of the middleware's handler leaves: the context, the random
source, the returned error (`none` for `nil`) and the log of the calls made. -/
structure Outcome where
  ctx : Context
  rand : Rand
  err : Option Error
  trace : List Event

/-- The defaulting of `CSRFWithConfig`: the five `if` statements on its
configuration. -/
def csrfDefaults (config : CSRFConfig) : CSRFConfig :=
  let config := if config.TokenLength = 0 then
    { config with TokenLength := DefaultCSRFConfig.TokenLength } else config
  let config := if config.TokenLookup = [] then
    { config with TokenLookup := DefaultCSRFConfig.TokenLookup } else config
  let config := if config.ContextKey = [] then
    { config with ContextKey := DefaultCSRFConfig.ContextKey } else config
  let config := if config.CookieName = [] then
    { config with CookieName := DefaultCSRFConfig.CookieName } else config
  let config := if config.CookieMaxAge = 0 then
    { config with CookieMaxAge := DefaultCSRFConfig.CookieMaxAge } else config
  config

/-- The initialisation of `CSRFWithConfig`: `strings.Split(config.TokenLookup, ":")`,
the header extractor of `parts[1]`, replaced by the form or the query extractor
when `parts[0]` is `"form"` or `"query"`.  An index out of range is `none`. -/
def csrfExtractor (config : CSRFConfig) : Option csrfTokenExtractor :=
  let parts := splitOn colon config.TokenLookup
  match parts[1]? with
  | none => none
  | some key =>
    let extractor := csrfTokenFromHeader key
    match parts[0]? with
    | none => none
    | some tag =>
      if tag = str "form" then some (csrfTokenFromForm key)
      else if tag = str "query" then some (csrfTokenFromQuery key)
      else some extractor

/-- The session token of a request: generated when `c.Cookie(config.CookieName)`
returns an error, the cookie's value otherwise. -/
def csrfToken (config : CSRFConfig) (c : Context) (rand : Rand) :
    Option (GoString × Rand × List Event) :=
  match c.Cookie config.CookieName with
  | none =>
    match generateCSRFToken config.TokenLength rand with
    | none => none
    | some (token, rand1) => some (token, rand1, [Event.generate token])
  | some v => some (v, rand, [])

/-- The `case echo.GET, echo.HEAD, echo.OPTIONS, echo.TRACE` of the method switch. -/
def isSafeMethod (m : GoString) : Bool :=
  m = GET || m = HEAD || m = OPTIONS || m = TRACE

/-- The method switch of the handler: nothing for a safe method; otherwise the
extractor is run, its error is returned, and a client token that does not
validate is answered with the 403 error.  The result is the error returned early
(`none`: the handler goes on) and the calls made. -/
def csrfCheck (extractor : csrfTokenExtractor) (c : Context) (token : GoString) :
    Option Error × List Event :=
  if isSafeMethod c.request.Method then (none, [])
  else
    match extractor c with
    | .error err => (some err, [Event.extract])
    | .ok clientToken =>
      if !validateCSRFToken token clientToken then
        (some (NewHTTPError StatusForbidden (str "csrf token is invalid")),
          [Event.extract, Event.validate token clientToken])
      else (none, [Event.extract, Event.validate token clientToken])

/-- The cookie the handler builds: `new(echo.Cookie)` and the setters. -/
def csrfCookie (config : CSRFConfig) (token : GoString) (now : Time) : Cookie :=
  let cookie := Cookie.new
  let cookie := { cookie with Name := config.CookieName }
  let cookie := { cookie with Value := token }
  let cookie := if config.CookiePath ≠ [] then { cookie with Path := config.CookiePath } else cookie
  let cookie := if config.CookieDomain ≠ [] then
    { cookie with Domain := config.CookieDomain } else cookie
  let cookie := { cookie with Expires := now + durationSeconds config.CookieMaxAge }
  let cookie := { cookie with Secure := config.CookieSecure }
  let cookie := { cookie with HTTPOnly := config.CookieHTTPOnly }
  cookie

/-- The context after the handler's `c.SetCookie(cookie)`, `c.Set(config.ContextKey,
token)` and `c.Response().Header().Add(echo.HeaderVary, echo.HeaderCookie)`. -/
def csrfRespond (config : CSRFConfig) (token : GoString) (now : Time) (c : Context) : Context :=
  ((c.SetCookie (csrfCookie config token now)).Set config.ContextKey token).headerAdd
    HeaderVary HeaderCookie

/-- The calls of `csrfRespond`, in order. -/
def csrfRespondTrace (config : CSRFConfig) (token : GoString) (now : Time) : List Event :=
  [Event.setCookie (csrfCookie config token now), Event.set config.ContextKey token,
    Event.headerAdd HeaderVary HeaderCookie]

/-- The handler `func(c echo.Context) error` that the middleware returns for
`next`, for the defaulted configuration and the extractor of the initialisation. -/
def csrfHandler (config : CSRFConfig) (extractor : csrfTokenExtractor) (next : HandlerFunc)
    (c : Context) (rand : Rand) (now : Time) : Option Outcome :=
  match csrfToken config c rand with
  | none => none
  | some (token, rand1, tr1) =>
    match csrfCheck extractor c token with
    | (some err, tr2) => some { ctx := c, rand := rand1, err := some err, trace := tr1 ++ tr2 }
    | (none, tr2) =>
      let c1 := csrfRespond config token now c
      let r := next c1
      some { ctx := r.1, rand := rand1, err := r.2,
             trace := tr1 ++ tr2 ++ csrfRespondTrace config token now ++ [Event.next] }

/-- An `echo.MiddlewareFunc` of this middleware: from `next` to the handler, with
the random source and the clock as arguments. -/
abbrev MiddlewareFunc := HandlerFunc → Context → Rand → Time → Option Outcome

/-- The function `CSRFWithConfig`; `none` when it panics. -/
def CSRFWithConfig (config : CSRFConfig) : Option MiddlewareFunc :=
  let config := csrfDefaults config
  match csrfExtractor config with
  | none => none
  | some extractor => some (fun next => csrfHandler config extractor next)

/-- The function `CSRF`. -/
def CSRF : Option MiddlewareFunc :=
  let c := DefaultCSRFConfig
  CSRFWithConfig c

/-! ## `routes/api/register.go` -/

/-- The struct `registerParams`. -/
structure registerParams where
  Name : GoString
  Mobile : GoString
  Password : GoString
  deriving DecidableEq, Repr

/-- The method `(p *registerParams) check()`: the parameters as the call leaves
them and the error returned (`none` for `nil`).  Go's `strings.TrimSpace` is the
argument `TrimSpace`. -/
def registerParams.check (TrimSpace : GoString → GoString) (p : registerParams) :
    registerParams × Option Error :=
  let p := { p with Name := TrimSpace p.Name }
  if p.Name = [] then (p, some (Error.errorString (str "用户名不可为空")))
  else
    let p := { p with Mobile := TrimSpace p.Mobile }
    if p.Mobile = [] ∨ p.Mobile.length ≠ 11 then
      (p, some (Error.errorString (str "手机号不合法")))
    else
      let p := { p with Password := TrimSpace p.Password }
      if p.Password = [] then (p, some (Error.errorString (str "密码不可为空")))
      else (p, none)

/-! ## `context/context.go` -/

/-- The constant `CodeSuccess`. -/
def CodeSuccess : Int := 0

/-- The constant `CodeUndefined`. -/
def CodeUndefined : Int := 999

/-- Go's `http.StatusOK` and `http.StatusInternalServerError`. -/
def StatusOK : Int := 200
def StatusInternalServerError : Int := 500

/-- The call `err.Error()` on a value of the interface `error` (`none`: the nil
interface): `(*SError).Error` returns `err.Msg`, `(*echo.HTTPError).Error` the
message, `errors.New(msg)` its text; on the nil interface and on a nil pointer
the call panics (nil dereference), which is `none`. -/
def errorText : Option Error → Option GoString
  | some (Error.errorString msg) => some msg
  | some (Error.httpError _ message) => some message
  | some (Error.sError _ msg) => some msg
  | some Error.sErrorNil => none
  | some Error.httpErrorNil => none
  | none => none

/-- The function `ErrBadRequest`: a pointer to a fresh `SError`. -/
def ErrBadRequest (detail : GoString) : Error :=
  Error.sError CodeUndefined (str "请求失败:" ++ detail)

/-- The variable `HTTPErrorHandler`: the context the handler leaves, `none` when it
panics.  The first case is `err.(*SError)` with `ok && de != nil`, the second
`err.(*echo.HTTPError)` with `ok && he != nil`, the last every other value of
`err`. -/
def HTTPErrorHandler (err : Option Error) (c : Context) : Option Context :=
  match err with
  | some (Error.sError code msg) =>
    if !c.Committed then
      some (c.JSON StatusOK [(str "code", JSONValue.int code), (str "msg", JSONValue.string msg)])
    else some c
  | some (Error.httpError code message) =>
    if !c.Committed then some (c.String code message) else some c
  | _ =>
    if !c.Committed then
      match errorText err with
      | none => none
      | some text => some (c.String StatusInternalServerError text)
    else some c

/-! ## Sample inputs -/

/-- The configuration with every field at its zero value. -/
def zeroConfig : CSRFConfig :=
  { TokenLength := 0, TokenLookup := [], ContextKey := [], CookieName := [], CookieDomain := [],
    CookiePath := [], CookieMaxAge := 0, CookieSecure := false, CookieHTTPOnly := false }

/-- A context for a request with the given method, whose cookie `_csrf` is
`cookie` and whose header `X-CSRF-Token`, form field `csrf` and query parameter
`csrf` are `client`; nothing is set on the response yet. -/
def sampleContext (method : GoString) (cookie client : Option GoString) : Context :=
  { request :=
      { Method := method
        cookie := fun name => if name = str "_csrf" then cookie else none
        header := fun name => if name = str "X-CSRF-Token" then client else none
        form := fun name => if name = str "csrf" then client else none
        query := fun name => if name = str "csrf" then client else none }
    store := fun _ => none
    respHeader := fun _ => []
    respCookies := [] }

/-- A downstream handler that leaves the context as it is and returns `nil`. -/
def sampleNext : HandlerFunc := fun c => (c, none)

/-- A downstream handler that fails. -/
def failingNext : HandlerFunc := fun c => (c, some (Error.sError 999 (str "failed")))

/-- A random source whose draws are 0, 1, 2, ... -/
def sampleRand : Rand := { draws := fun i => i, pos := 0 }

/-- The middleware of the zero configuration, written out. -/
def zeroMiddleware : MiddlewareFunc :=
  fun next => csrfHandler (csrfDefaults zeroConfig) (csrfTokenFromHeader HeaderXCSRFToken) next

/-- Echo's method constant `echo.POST`. -/
def POST : GoString := str "POST"

/-- The zero configuration with the lookup `form:csrf`, and its middleware. -/
def formConfig : CSRFConfig := { zeroConfig with TokenLookup := str "form:csrf" }

/-- The middleware of `formConfig`, written out. -/
def formMiddleware : MiddlewareFunc :=
  fun next => csrfHandler (csrfDefaults formConfig) (csrfTokenFromForm (str "csrf")) next

/-- The zero configuration with the lookup `query:csrf`, and its middleware. -/
def queryConfig : CSRFConfig := { zeroConfig with TokenLookup := str "query:csrf" }

/-- The middleware of `queryConfig`, written out. -/
def queryMiddleware : MiddlewareFunc :=
  fun next => csrfHandler (csrfDefaults queryConfig) (csrfTokenFromQuery (str "csrf")) next

/-- The zero configuration with a maximal age of 9223372037 seconds, whose count
of nanoseconds is beyond `int64`, and its middleware. -/
def longLivedConfig : CSRFConfig := { zeroConfig with CookieMaxAge := 9223372037 }

/-- The middleware of `longLivedConfig`, written out. -/
def longLivedMiddleware : MiddlewareFunc :=
  fun next => csrfHandler (csrfDefaults longLivedConfig) (csrfTokenFromHeader HeaderXCSRFToken) next

/-- A context without request data, with nothing set and nothing written. -/
def emptyContext : Context :=
  { request :=
      { Method := []
        cookie := fun _ => none
        header := fun _ => none
        form := fun _ => none
        query := fun _ => none }
    store := fun _ => none
    respHeader := fun _ => []
    respCookies := [] }

/-- The zero configuration with the lookup `header`, which has no `:`. -/
def noColonConfig : CSRFConfig := { zeroConfig with TokenLookup := str "header" }

/-- The zero configuration with the lookup `Form:a:b`, and its middleware. -/
def upperFormConfig : CSRFConfig := { zeroConfig with TokenLookup := str "Form:a:b" }

/-- A stand-in for `strings.TrimSpace` on ASCII strings: the string without its
leading and trailing bytes space, `\t`, `\n`, `\v`, `\f` and `\r`. -/
def trimASCII (s : GoString) : GoString :=
  let isSpace : Byte → Bool := fun b => b = 32 || (9 ≤ b.val && b.val ≤ 13)
  ((s.dropWhile isSpace).reverse.dropWhile isSpace).reverse

/-- A GET request with the cookie `_csrf=abc` whose response already has the
`Vary` values `Accept-Encoding` and `Origin` and a `Server` header. -/
def variedContext : Context :=
  { sampleContext GET (some (str "abc")) none with
    respHeader := fun k =>
      if k = str "Vary" then [str "Accept-Encoding", str "Origin"]
      else if k = str "Server" then [str "stone"] else [] }

/-! ## Lemmas on the library functions -/

theorem lor_eq_zero_iff (a b : Nat) : a ||| b = 0 ↔ a = 0 ∧ b = 0 := by
  constructor
  · intro h
    have hbit : ∀ i, (a.testBit i || b.testBit i) = false := by
      intro i
      rw [← Nat.testBit_or, h]
      exact Nat.zero_testBit i
    refine ⟨Nat.zero_of_testBit_eq_false fun i => ?_, Nat.zero_of_testBit_eq_false fun i => ?_⟩
    · exact (Bool.or_eq_false_iff.mp (hbit i)).1
    · exact (Bool.or_eq_false_iff.mp (hbit i)).2
  · rintro ⟨rfl, rfl⟩
    rfl

theorem byte_xor_lt (a b : Byte) : a.val ^^^ b.val < 256 :=
  @Nat.xor_lt_two_pow a.val b.val 8 a.isLt b.isLt

theorem ctStep_eq (v : Nat) (hv : v < 256) (a b : Byte) :
    (v ||| (a.val ^^^ b.val)) % 256 = v ||| (a.val ^^^ b.val) :=
  Nat.mod_eq_of_lt (@Nat.or_lt_two_pow v (a.val ^^^ b.val) 8 hv (byte_xor_lt a b))

theorem ctAccumulate_eq_zero_iff (x : List Byte) :
    ∀ (y : List Byte) (v : Nat), x.length = y.length → v < 256 →
      (ctAccumulate v x y < 256 ∧ (ctAccumulate v x y = 0 ↔ v = 0 ∧ x = y)) := by
  induction x with
  | nil =>
    intro y v hlen hv
    cases y with
    | nil => simp [ctAccumulate, hv]
    | cons b y => simp at hlen
  | cons a x ih =>
    intro y v hlen hv
    cases y with
    | nil => simp at hlen
    | cons b y =>
      have hlen2 : x.length = y.length := by simpa using hlen
      have hstep := ctStep_eq v hv a b
      have hlt : (v ||| (a.val ^^^ b.val)) % 256 < 256 := Nat.mod_lt _ (by decide)
      have h := ih y _ hlen2 hlt
      refine ⟨by simpa [ctAccumulate] using h.1, ?_⟩
      simp only [ctAccumulate]
      rw [h.2, hstep, lor_eq_zero_iff, Nat.xor_eq_zero]
      constructor
      · rintro ⟨⟨hv0, hab⟩, hxy⟩
        exact ⟨hv0, by rw [Fin.ext hab, hxy]⟩
      · rintro ⟨hv0, hxy⟩
        injection hxy with h1 h2
        exact ⟨⟨hv0, by rw [h1]⟩, h2⟩

theorem ConstantTimeByteEq_zero (a : Nat) (ha : a < 256) :
    ConstantTimeByteEq (Fin.ofNat a) 0 = 1 ↔ a = 0 := by
  have hval : (Fin.ofNat a : Byte).val = a := by
    simp [Fin.ofNat, Nat.mod_eq_of_lt ha]
  unfold ConstantTimeByteEq
  rw [hval]
  simp only [Fin.val_zero, Nat.xor_zero, Nat.shiftRight_eq_div_pow]
  constructor
  · intro h
    by_contra hne
    have h1 : (a + 2 ^ 32 - 1) % 2 ^ 32 = a - 1 := by omega
    rw [h1] at h
    omega
  · rintro rfl
    decide

theorem ConstantTimeCompare_eq_one_iff (x y : List Byte) :
    ConstantTimeCompare x y = 1 ↔ x = y := by
  unfold ConstantTimeCompare
  by_cases hlen : x.length = y.length
  · have h := ctAccumulate_eq_zero_iff x y 0 hlen (by decide)
    simp only [hlen, ne_eq, not_true_eq_false, if_false]
    rw [ConstantTimeByteEq_zero _ h.1, h.2]
    simp
  · simp only [ne_eq, hlen, not_false_eq_true, if_true]
    constructor
    · intro h
      exact absurd h (by decide)
    · intro h
      exact absurd (congrArg List.length h) hlen

theorem validateCSRFToken_iff (token clientToken : GoString) :
    validateCSRFToken token clientToken = true ↔ token = clientToken := by
  unfold validateCSRFToken
  rw [beq_iff_eq]
  exact ConstantTimeCompare_eq_one_iff token clientToken


/-! ## Lemmas on `csrf.go` -/

theorem chars_length : chars.length = 62 := by decide

set_option maxRecDepth 100000 in
theorem chars_alphanumeric :
    ∀ b ∈ chars, (97 ≤ b.val ∧ b.val ≤ 122) ∨ (65 ≤ b.val ∧ b.val ≤ 90) ∨
      (48 ≤ b.val ∧ b.val ≤ 57) := by
  decide

theorem generateLoop_spec (n : Nat) :
    ∀ r : Rand, ∃ token, generateLoop n r = some (token, { r with pos := r.pos + n }) ∧
      token.length = n ∧
      ∀ i, i < n → ∃ b, chars[r.draws (r.pos + i) % 2 ^ 63 % 62]? = some b ∧
        token[i]? = some b := by
  induction n with
  | zero =>
    intro r
    exact ⟨[], rfl, rfl, fun i hi => absurd hi (Nat.not_lt_zero i)⟩
  | succ n ih =>
    intro r
    have hidx : r.Int63.1 % chars.length < chars.length :=
      Nat.mod_lt _ (by rw [chars_length]; decide)
    obtain ⟨token, hgen, hlen, hpos⟩ := ih r.Int63.2
    refine ⟨chars[r.Int63.1 % chars.length] :: token, ?_, by simp [hlen], ?_⟩
    · simp only [generateLoop, List.getElem?_eq_getElem hidx, hgen]
      simp [Rand.Int63, Nat.add_assoc, Nat.add_comm 1 n]
    · intro i hi
      cases i with
      | zero =>
        refine ⟨chars[r.Int63.1 % chars.length], ?_, by simp⟩
        have h := List.getElem?_eq_getElem hidx
        simp only [Rand.Int63, chars_length] at h ⊢
        exact h
      | succ i =>
        obtain ⟨b, hb, htok⟩ := hpos i (Nat.lt_of_succ_lt_succ hi)
        refine ⟨b, ?_, by simpa using htok⟩
        simpa [Rand.Int63, Nat.add_assoc, Nat.add_comm 1 i] using hb

theorem DefaultCSRFConfig_TokenLookup :
    DefaultCSRFConfig.TokenLookup = str "header:X-CSRF-Token" := by decide

theorem csrfDefaults_eq (config : CSRFConfig) :
    csrfDefaults config =
      { TokenLength := if config.TokenLength = 0 then 32 else config.TokenLength
        TokenLookup :=
          if config.TokenLookup = [] then str "header:X-CSRF-Token" else config.TokenLookup
        ContextKey := if config.ContextKey = [] then str "csrf" else config.ContextKey
        CookieName := if config.CookieName = [] then str "_csrf" else config.CookieName
        CookieDomain := config.CookieDomain
        CookiePath := config.CookiePath
        CookieMaxAge := if config.CookieMaxAge = 0 then 86400 else config.CookieMaxAge
        CookieSecure := config.CookieSecure
        CookieHTTPOnly := config.CookieHTTPOnly } := by
  rw [← DefaultCSRFConfig_TokenLookup]
  unfold csrfDefaults
  simp only []
  split_ifs <;> rfl

theorem csrfDefaults_idem (config : CSRFConfig) :
    csrfDefaults (csrfDefaults config) = csrfDefaults config := by
  have h1 : str "header:X-CSRF-Token" ≠ [] := by decide
  have h2 : str "csrf" ≠ [] := by decide
  have h3 : str "_csrf" ≠ [] := by decide
  rw [csrfDefaults_eq (csrfDefaults config), csrfDefaults_eq config]
  simp only []
  congr 1
  · split_ifs <;> rfl
  · split_ifs <;> rfl
  · split_ifs <;> rfl
  · split_ifs <;> rfl
  · split_ifs <;> rfl

theorem isSafeMethod_eq_true_iff (m : GoString) :
    isSafeMethod m = true ↔ (m = GET ∨ m = HEAD ∨ m = OPTIONS ∨ m = TRACE) := by
  simp [isSafeMethod, or_assoc]

theorem isSafeMethod_eq_false_iff (m : GoString) :
    isSafeMethod m = false ↔ (m ≠ GET ∧ m ≠ HEAD ∧ m ≠ OPTIONS ∧ m ≠ TRACE) := by
  simp [isSafeMethod, and_assoc]

theorem csrfToken_cookie (config : CSRFConfig) (c : Context) (rand : Rand) (v : GoString)
    (h : c.Cookie config.CookieName = some v) :
    csrfToken config c rand = some (v, rand, []) := by
  simp [csrfToken, h]

theorem csrfToken_generate (config : CSRFConfig) (c : Context) (rand : Rand)
    (h : c.Cookie config.CookieName = none) :
    ∃ token, generateCSRFToken config.TokenLength rand =
        some (token, { rand with pos := rand.pos + config.TokenLength }) ∧
      csrfToken config c rand =
        some (token, { rand with pos := rand.pos + config.TokenLength },
          [Event.generate token]) ∧
      token.length = config.TokenLength := by
  obtain ⟨token, hgen, hlen, -⟩ := generateLoop_spec config.TokenLength rand
  refine ⟨token, hgen, ?_, hlen⟩
  simp [csrfToken, h, generateCSRFToken, hgen]

theorem csrfToken_total (config : CSRFConfig) (c : Context) (rand : Rand) :
    ∃ token rand1 tr1, csrfToken config c rand = some (token, rand1, tr1) ∧
      (tr1 = [] ∨ tr1 = [Event.generate token]) := by
  cases h : c.Cookie config.CookieName with
  | none =>
    obtain ⟨token, -, htok, -⟩ := csrfToken_generate config c rand h
    exact ⟨token, _, _, htok, Or.inr rfl⟩
  | some v => exact ⟨v, rand, [], csrfToken_cookie config c rand v h, Or.inl rfl⟩

theorem csrfToken_trace (config : CSRFConfig) (c : Context) (rand rand1 : Rand)
    (token : GoString) (tr1 : List Event)
    (h : csrfToken config c rand = some (token, rand1, tr1)) :
    (c.Cookie config.CookieName = some token ∧ rand1 = rand ∧ tr1 = []) ∨
    (c.Cookie config.CookieName = none ∧
      generateCSRFToken config.TokenLength rand = some (token, rand1) ∧
      token.length = config.TokenLength ∧ tr1 = [Event.generate token]) := by
  cases hc : c.Cookie config.CookieName with
  | none =>
    obtain ⟨token2, hgen, htok, hlen⟩ := csrfToken_generate config c rand hc
    rw [htok] at h
    simp only [Option.some.injEq, Prod.mk.injEq] at h
    obtain ⟨h1, h2, h3⟩ := h
    subst h1 h2 h3
    exact Or.inr ⟨rfl, hgen, hlen, rfl⟩
  | some v =>
    rw [csrfToken_cookie config c rand v hc] at h
    simp only [Option.some.injEq, Prod.mk.injEq] at h
    obtain ⟨h1, h2, h3⟩ := h
    subst h1 h2 h3
    exact Or.inl ⟨rfl, rfl, rfl⟩

theorem csrfCheck_safe (extractor : csrfTokenExtractor) (c : Context) (token : GoString)
    (hm : isSafeMethod c.request.Method = true) :
    csrfCheck extractor c token = (none, []) := by
  simp [csrfCheck, hm]

theorem csrfCheck_error (extractor : csrfTokenExtractor) (c : Context) (token : GoString)
    (hm : isSafeMethod c.request.Method = false) (err : Error)
    (hext : extractor c = .error err) :
    csrfCheck extractor c token = (some err, [Event.extract]) := by
  simp [csrfCheck, hm, hext]

theorem csrfCheck_mismatch (extractor : csrfTokenExtractor) (c : Context) (token : GoString)
    (hm : isSafeMethod c.request.Method = false) (clientToken : GoString)
    (hext : extractor c = .ok clientToken) (hne : clientToken ≠ token) :
    csrfCheck extractor c token =
      (some (Error.httpError 403 (str "csrf token is invalid")),
        [Event.extract, Event.validate token clientToken]) := by
  have hv : validateCSRFToken token clientToken = false := by
    rw [Bool.eq_false_iff, Ne, validateCSRFToken_iff]
    exact fun h => hne h.symm
  simp [csrfCheck, hm, hext, hv, NewHTTPError, StatusForbidden]

theorem csrfCheck_match (extractor : csrfTokenExtractor) (c : Context) (token : GoString)
    (hm : isSafeMethod c.request.Method = false) (hext : extractor c = .ok token) :
    csrfCheck extractor c token = (none, [Event.extract, Event.validate token token]) := by
  have hv : validateCSRFToken token token = true := (validateCSRFToken_iff token token).mpr rfl
  simp [csrfCheck, hm, hext, hv]

theorem csrfHandler_reject (config : CSRFConfig) (extractor : csrfTokenExtractor)
    (next : HandlerFunc) (c : Context) (rand rand1 : Rand) (now : Time) (token : GoString)
    (tr1 tr2 : List Event) (err : Error)
    (htok : csrfToken config c rand = some (token, rand1, tr1))
    (hcheck : csrfCheck extractor c token = (some err, tr2)) :
    csrfHandler config extractor next c rand now =
      some { ctx := c, rand := rand1, err := some err, trace := tr1 ++ tr2 } := by
  simp [csrfHandler, htok, hcheck]

theorem csrfHandler_pass (config : CSRFConfig) (extractor : csrfTokenExtractor)
    (next : HandlerFunc) (c : Context) (rand rand1 : Rand) (now : Time) (token : GoString)
    (tr1 tr2 : List Event)
    (htok : csrfToken config c rand = some (token, rand1, tr1))
    (hcheck : csrfCheck extractor c token = (none, tr2)) :
    csrfHandler config extractor next c rand now =
      some { ctx := (next (csrfRespond config token now c)).1, rand := rand1,
             err := (next (csrfRespond config token now c)).2,
             trace := tr1 ++ tr2 ++ csrfRespondTrace config token now ++ [Event.next] } := by
  simp [csrfHandler, htok, hcheck]

theorem CSRFWithConfig_eq (config : CSRFConfig) (mw : MiddlewareFunc)
    (hmw : CSRFWithConfig config = some mw) :
    ∃ extractor, csrfExtractor (csrfDefaults config) = some extractor ∧
      mw = fun next => csrfHandler (csrfDefaults config) extractor next := by
  unfold CSRFWithConfig at hmw
  cases hex : csrfExtractor (csrfDefaults config) with
  | none => simp [hex] at hmw
  | some extractor =>
    simp only [hex, Option.some.injEq] at hmw
    exact ⟨extractor, rfl, hmw.symm⟩

theorem csrfCheck_accept (extractor : csrfTokenExtractor) (c : Context) (token : GoString)
    (hacc : (c.request.Method = GET ∨ c.request.Method = HEAD ∨ c.request.Method = OPTIONS ∨
      c.request.Method = TRACE) ∨ extractor c = .ok token) :
    csrfCheck extractor c token = (none, []) ∨
      csrfCheck extractor c token = (none, [Event.extract, Event.validate token token]) := by
  cases hsafe : isSafeMethod c.request.Method with
  | true => exact Or.inl (csrfCheck_safe extractor c token hsafe)
  | false =>
    rcases hacc with hm | hext
    · rw [(isSafeMethod_eq_true_iff _).mpr hm] at hsafe
      exact absurd hsafe (by decide)
    · exact Or.inr (csrfCheck_match extractor c token hsafe hext)

theorem csrfHandler_accept (config : CSRFConfig) (extractor : csrfTokenExtractor)
    (next : HandlerFunc) (c : Context) (rand rand1 : Rand) (now : Time) (token : GoString)
    (tr1 : List Event)
    (htok : csrfToken config c rand = some (token, rand1, tr1))
    (hacc : (c.request.Method = GET ∨ c.request.Method = HEAD ∨ c.request.Method = OPTIONS ∨
      c.request.Method = TRACE) ∨ extractor c = .ok token) :
    ∃ tr2, (tr2 = [] ∨ tr2 = [Event.extract, Event.validate token token]) ∧
      csrfHandler config extractor next c rand now =
        some { ctx := (next (csrfRespond config token now c)).1, rand := rand1,
               err := (next (csrfRespond config token now c)).2,
               trace := tr1 ++ tr2 ++ csrfRespondTrace config token now ++ [Event.next] } := by
  rcases csrfCheck_accept extractor c token hacc with h | h
  · exact ⟨[], Or.inl rfl, csrfHandler_pass config extractor next c rand rand1 now token tr1 []
      htok h⟩
  · exact ⟨_, Or.inr rfl, csrfHandler_pass config extractor next c rand rand1 now token tr1 _
      htok h⟩

theorem csrfCheck_trace (extractor : csrfTokenExtractor) (c : Context) (token : GoString) :
    ∀ t, Event.generate t ∉ (csrfCheck extractor c token).2 := by
  intro t
  unfold csrfCheck
  split
  · simp
  · split
    · simp
    · split <;> simp

theorem csrfHandler_total (config : CSRFConfig) (extractor : csrfTokenExtractor)
    (next : HandlerFunc) (c : Context) (rand rand1 : Rand) (now : Time) (token : GoString)
    (tr1 : List Event)
    (htok : csrfToken config c rand = some (token, rand1, tr1)) :
    ∃ out tr2, csrfHandler config extractor next c rand now = some out ∧
      out.rand = rand1 ∧ out.trace = tr1 ++ tr2 ∧ ∀ t, Event.generate t ∉ tr2 := by
  have htr := csrfCheck_trace extractor c token
  cases hcheck : csrfCheck extractor c token with
  | mk e tr2 =>
    rw [hcheck] at htr
    cases e with
    | some err =>
      exact ⟨_, tr2, csrfHandler_reject config extractor next c rand rand1 now token tr1 tr2 err
        htok hcheck, rfl, rfl, htr⟩
    | none =>
      refine ⟨_, tr2 ++ csrfRespondTrace config token now ++ [Event.next],
        csrfHandler_pass config extractor next c rand rand1 now token tr1 tr2 htok hcheck,
        rfl, by simp, ?_⟩
      intro t
      have := htr t
      simp only [csrfRespondTrace] at this ⊢
      simp [this]

theorem csrfExtractor_header_default (config : CSRFConfig)
    (h : config.TokenLookup = str "header:X-CSRF-Token") :
    csrfExtractor config = some (csrfTokenFromHeader HeaderXCSRFToken) := by
  unfold csrfExtractor
  rw [h]
  rfl

theorem csrfExtractor_of_split (config : CSRFConfig) (tag key : GoString)
    (rest : List GoString) (h : splitOn colon config.TokenLookup = tag :: key :: rest) :
    csrfExtractor config = some
      (if tag = str "form" then csrfTokenFromForm key
       else if tag = str "query" then csrfTokenFromQuery key
       else csrfTokenFromHeader key) := by
  unfold csrfExtractor
  rw [h]
  simp only [List.getElem?_cons_succ, List.getElem?_cons_zero]
  split_ifs <;> rfl

theorem csrfDefaults_TokenLookup_of_split (config : CSRFConfig) (tag key : GoString)
    (rest : List GoString) (h : splitOn colon config.TokenLookup = tag :: key :: rest) :
    (csrfDefaults config).TokenLookup = config.TokenLookup := by
  have hne : config.TokenLookup ≠ [] := by
    intro h0
    rw [h0] at h
    simp [splitOn] at h
  rw [csrfDefaults_eq]
  simp [hne]

theorem durationSeconds_eq (n : Int) (h1 : -9223372036 ≤ n) (h2 : n ≤ 9223372036) :
    durationSeconds n = n * 1000000000 := by
  unfold durationSeconds wrapInt64 Second
  omega

theorem csrfCookie_eq (config : CSRFConfig) (token : GoString) (now : Time) :
    csrfCookie config token now =
      { Name := config.CookieName, Value := token, Path := config.CookiePath,
        Domain := config.CookieDomain, Expires := now + durationSeconds config.CookieMaxAge,
        Secure := config.CookieSecure, HTTPOnly := config.CookieHTTPOnly } := by
  unfold csrfCookie Cookie.new
  by_cases hp : config.CookiePath = [] <;> by_cases hd : config.CookieDomain = [] <;>
    simp [hp, hd]

theorem csrfDefaults_TokenLength_pos (config : CSRFConfig) :
    0 < (csrfDefaults config).TokenLength := by
  rw [csrfDefaults_eq]
  simp only []
  split_ifs <;> omega

theorem csrfDefaults_rest (config : CSRFConfig) :
    (csrfDefaults config).CookieDomain = config.CookieDomain ∧
    (csrfDefaults config).CookiePath = config.CookiePath ∧
    (csrfDefaults config).CookieSecure = config.CookieSecure ∧
    (csrfDefaults config).CookieHTTPOnly = config.CookieHTTPOnly := by
  rw [csrfDefaults_eq]
  exact ⟨rfl, rfl, rfl, rfl⟩

theorem splitOn_ne_nil (sep : Byte) (s : GoString) : splitOn sep s ≠ [] := by
  cases s with
  | nil => simp [splitOn]
  | cons b bs =>
    unfold splitOn
    split_ifs
    · simp
    · split <;> simp

theorem splitOn_of_not_mem (sep : Byte) (s : GoString) (h : sep ∉ s) : splitOn sep s = [s] := by
  induction s with
  | nil => rfl
  | cons b bs ih =>
    have hb : b ≠ sep := fun hb => h (by simp [hb])
    have hbs : sep ∉ bs := fun hbs => h (List.mem_cons_of_mem _ hbs)
    simp [splitOn, hb, ih hbs]

theorem splitOn_append (sep : Byte) (tag rest : GoString) (h : sep ∉ tag) :
    splitOn sep (tag ++ sep :: rest) = tag :: splitOn sep rest := by
  induction tag with
  | nil => simp [splitOn]
  | cons b bs ih =>
    have hb : b ≠ sep := fun hb => h (by simp [hb])
    have hbs : sep ∉ bs := fun hbs => h (List.mem_cons_of_mem _ hbs)
    simp [splitOn, hb, ih hbs]

theorem splitOn_head (sep : Byte) (s : GoString) :
    ∃ ps, splitOn sep s = s.takeWhile (fun b => b != sep) :: ps := by
  induction s with
  | nil => exact ⟨[], rfl⟩
  | cons b bs ih =>
    by_cases hb : b = sep
    · exact ⟨splitOn sep bs, by simp [splitOn, hb]⟩
    · obtain ⟨ps, hps⟩ := ih
      exact ⟨ps, by simp [splitOn, hb, hps]⟩

theorem splitOn_of_mem (sep : Byte) (s : GoString) (h : sep ∈ s) :
    ∃ rest ps, s = s.takeWhile (fun b => b != sep) ++ sep :: rest ∧
      sep ∉ s.takeWhile (fun b => b != sep) ∧
      splitOn sep s =
        s.takeWhile (fun b => b != sep) :: rest.takeWhile (fun b => b != sep) :: ps := by
  induction s with
  | nil => simp at h
  | cons b bs ih =>
    by_cases hb : b = sep
    · obtain ⟨ps, hps⟩ := splitOn_head sep bs
      exact ⟨bs, ps, by simp [hb], by simp [hb], by simp [splitOn, hb, hps]⟩
    · have hbs : sep ∈ bs := by
        rcases List.mem_cons.mp h with h1 | h1
        · exact absurd h1.symm hb
        · exact h1
      obtain ⟨rest, ps, h1, h2, h3⟩ := ih hbs
      have hb2 : sep ≠ b := fun h0 => hb h0.symm
      refine ⟨rest, ps, ?_, ?_, ?_⟩
      · simp only [List.takeWhile_cons, bne_iff_ne, ne_eq, hb, not_false_eq_true, decide_True,
          if_true, List.cons_append, List.cons.injEq, true_and]
        exact h1
      · simp only [List.takeWhile_cons, bne_iff_ne, ne_eq, hb, not_false_eq_true, decide_True,
          if_true, List.mem_cons, not_or]
        exact ⟨hb2, h2⟩
      · simp only [splitOn, hb, if_false, h3, List.takeWhile_cons, bne_iff_ne, ne_eq,
          not_false_eq_true, decide_True, if_true]

theorem csrfDefaults_TokenLookup_mem (config : CSRFConfig)
    (h : config.TokenLookup = [] ∨ colon ∈ config.TokenLookup) :
    colon ∈ (csrfDefaults config).TokenLookup := by
  rw [csrfDefaults_eq]
  simp only []
  rcases h with h | h
  · rw [if_pos h]
    decide
  · have hne : config.TokenLookup ≠ [] := by
      intro h0
      rw [h0] at h
      simp at h
    rw [if_neg hne]
    exact h

theorem CSRFWithConfig_of_extractor (config : CSRFConfig) (extractor : csrfTokenExtractor)
    (hex : csrfExtractor (csrfDefaults config) = some extractor) :
    CSRFWithConfig config = some (fun next => csrfHandler (csrfDefaults config) extractor next) := by
  simp only [CSRFWithConfig, hex]

theorem csrfTokenFromForm_ne_header (key key2 : GoString) :
    csrfTokenFromForm key ≠ csrfTokenFromHeader key2 := by
  intro h
  have := congrFun h emptyContext
  simp [csrfTokenFromForm, csrfTokenFromHeader, Context.FormValue, emptyContext] at this

theorem csrfTokenFromQuery_ne_header (key key2 : GoString) :
    csrfTokenFromQuery key ≠ csrfTokenFromHeader key2 := by
  intro h
  have := congrFun h emptyContext
  simp [csrfTokenFromQuery, csrfTokenFromHeader, Context.QueryParam, emptyContext] at this

theorem csrfTokenFromForm_ne_query (key key2 : GoString) :
    csrfTokenFromForm key ≠ csrfTokenFromQuery key2 := by
  intro h
  have hmsg : str "empty csrf token in form param" ≠ str "empty csrf token in query param" := by
    decide
  have := congrFun h emptyContext
  simp only [csrfTokenFromForm, csrfTokenFromQuery, Context.FormValue, Context.QueryParam,
    emptyContext, Option.getD_none, if_true, Except.error.injEq, Error.errorString.injEq] at this
  exact hmsg this

/-! ## Lemmas on `register.go` and `context.go` -/

theorem registerParams_check_sample :
    registerParams.check trimASCII
        { Name := str " bob ", Mobile := str "\tabcdefghijk ", Password := str "pw" } =
      ({ Name := str "bob", Mobile := str "abcdefghijk", Password := str "pw" }, none) := by
  decide

theorem HTTPErrorHandler_cases (c : Context) :
    (∀ code msg, HTTPErrorHandler (some (Error.sError code msg)) c =
      some (if c.committed then c
        else c.JSON 200 [(str "code", JSONValue.int code), (str "msg", JSONValue.string msg)])) ∧
    (∀ code message, HTTPErrorHandler (some (Error.httpError code message)) c =
      some (if c.committed then c else c.String code message)) ∧
    (∀ msg, HTTPErrorHandler (some (Error.errorString msg)) c =
      some (if c.committed then c else c.String 500 msg)) ∧
    (∀ err, c.committed = true → HTTPErrorHandler err c = some c) ∧
    (∀ err c2, HTTPErrorHandler err c = some c2 →
      c2.written = c.written ∨ ∃ w, c2.written = c.written ++ [w]) ∧
    (∀ detail, ErrBadRequest detail = Error.sError 999 (str "请求失败:" ++ detail)) ∧
    (∀ detail, c.committed = false → HTTPErrorHandler (some (ErrBadRequest detail)) c =
      some (c.JSON 200 [(str "code", JSONValue.int 999),
        (str "msg", JSONValue.string (str "请求失败:" ++ detail))])) := by
  refine ⟨?_, ?_, ?_, ?_, ?_, fun _ => rfl, ?_⟩
  · intro code msg
    cases hc : c.committed <;> simp [HTTPErrorHandler, Context.Committed, hc, StatusOK]
  · intro code message
    cases hc : c.committed <;> simp [HTTPErrorHandler, Context.Committed, hc]
  · intro msg
    cases hc : c.committed <;>
      simp [HTTPErrorHandler, Context.Committed, hc, errorText, StatusInternalServerError]
  · intro err hc
    unfold HTTPErrorHandler
    split <;> simp [Context.Committed, hc]
  · intro err c2 h
    unfold HTTPErrorHandler at h
    split at h
    · split at h <;> simp only [Option.some.injEq] at h <;> subst h
      · exact Or.inr ⟨_, rfl⟩
      · exact Or.inl rfl
    · split at h <;> simp only [Option.some.injEq] at h <;> subst h
      · exact Or.inr ⟨_, rfl⟩
      · exact Or.inl rfl
    · split at h
      · split at h
        · simp at h
        · simp only [Option.some.injEq] at h
          subst h
          exact Or.inr ⟨_, rfl⟩
      · simp only [Option.some.injEq] at h
        subst h
        exact Or.inl rfl
  · intro detail hc
    simp [HTTPErrorHandler, ErrBadRequest, Context.Committed, hc, StatusOK, CodeUndefined]

/-! ## The claims -/

/-- C1: for every configuration from which a middleware is built and every request
whose method is GET, HEAD, OPTIONS or TRACE, whatever its cookie and whatever
the client submits, the handler returns, its log has neither an extractor call nor
a token comparison, the downstream handler is called once, and the handler's
context and error are exactly those of the downstream handler (the middleware adds
no rejection of its own). -/
theorem safe_method_skips_validation (config : CSRFConfig) (mw : MiddlewareFunc)
    (hmw : CSRFWithConfig config = some mw) (next : HandlerFunc) (c : Context) (rand : Rand)
    (now : Time)
    (hm : c.request.Method = GET ∨ c.request.Method = HEAD ∨ c.request.Method = OPTIONS ∨
      c.request.Method = TRACE) :
    ∃ out token, mw next c rand now = some out ∧
      Event.extract ∉ out.trace ∧
      (∀ t ct, Event.validate t ct ∉ out.trace) ∧
      out.trace.count Event.next = 1 ∧
      (out.ctx, out.err) = next (csrfRespond (csrfDefaults config) token now c) := by
  obtain ⟨extractor, -, rfl⟩ := CSRFWithConfig_eq config mw hmw
  obtain ⟨token, rand1, tr1, htok, htr⟩ := csrfToken_total (csrfDefaults config) c rand
  have hsafe := (isSafeMethod_eq_true_iff _).mpr hm
  refine ⟨_, token, csrfHandler_pass _ extractor next c rand rand1 now token tr1 []
    htok (csrfCheck_safe extractor c token hsafe), ?_, ?_, ?_, rfl⟩
  · rcases htr with rfl | rfl <;> simp [csrfRespondTrace]
  · intro t ct
    rcases htr with rfl | rfl <;> simp [csrfRespondTrace]
  · rcases htr with rfl | rfl <;> simp [csrfRespondTrace, List.count_cons]

theorem safe_method_skips_validation_witness :
    CSRFWithConfig zeroConfig = some zeroMiddleware ∧
    (sampleContext GET none (some (str "forged"))).request.Method = GET ∧
    ∃ out token, zeroMiddleware failingNext (sampleContext GET none (some (str "forged")))
        sampleRand 0 = some out ∧
      Event.extract ∉ out.trace ∧
      (∀ t ct, Event.validate t ct ∉ out.trace) ∧
      out.trace.count Event.next = 1 ∧
      (out.ctx, out.err) = failingNext (csrfRespond (csrfDefaults zeroConfig) token 0
        (sampleContext GET none (some (str "forged")))) :=
  ⟨rfl, rfl, safe_method_skips_validation zeroConfig zeroMiddleware rfl failingNext
    (sampleContext GET none (some (str "forged"))) sampleRand 0 (Or.inl rfl)⟩

/-- C2: for a request whose method is none of GET, HEAD, OPTIONS, TRACE, when the
extractor of the middleware succeeds with a client token that differs from the
session token (the cookie's value, or the token generated when there is no
cookie), the handler returns the HTTP error 403 "csrf token is invalid", the
downstream handler is not called and the context is left as it was; in particular
with the lookup `header:X-CSRF-Token`, a cookie and a header `X-CSRF-Token` of a
different value. -/
theorem token_mismatch_is_forbidden (config : CSRFConfig) (mw : MiddlewareFunc)
    (hmw : CSRFWithConfig config = some mw) (next : HandlerFunc) (c : Context) (rand : Rand)
    (now : Time)
    (hm : c.request.Method ≠ GET ∧ c.request.Method ≠ HEAD ∧ c.request.Method ≠ OPTIONS ∧
      c.request.Method ≠ TRACE) :
    (∀ extractor token rand1 tr1 clientToken,
      csrfExtractor (csrfDefaults config) = some extractor →
      csrfToken (csrfDefaults config) c rand = some (token, rand1, tr1) →
      extractor c = .ok clientToken → clientToken ≠ token →
      ∃ out, mw next c rand now = some out ∧
        out.err = some (Error.httpError 403 (str "csrf token is invalid")) ∧
        Event.next ∉ out.trace ∧ out.ctx = c) ∧
    (∀ cookieToken headerToken,
      (csrfDefaults config).TokenLookup = str "header:X-CSRF-Token" →
      c.request.cookie (csrfDefaults config).CookieName = some cookieToken →
      c.request.header (str "X-CSRF-Token") = some headerToken →
      headerToken ≠ cookieToken →
      ∃ out, mw next c rand now = some out ∧
        out.err = some (Error.httpError 403 (str "csrf token is invalid")) ∧
        Event.next ∉ out.trace ∧ out.ctx = c) := by
  obtain ⟨extractor0, hex0, rfl⟩ := CSRFWithConfig_eq config mw hmw
  have hunsafe := (isSafeMethod_eq_false_iff _).mpr hm
  have key : ∀ token rand1 tr1 clientToken,
      csrfToken (csrfDefaults config) c rand = some (token, rand1, tr1) →
      extractor0 c = .ok clientToken → clientToken ≠ token →
      ∃ out, csrfHandler (csrfDefaults config) extractor0 next c rand now = some out ∧
        out.err = some (Error.httpError 403 (str "csrf token is invalid")) ∧
        Event.next ∉ out.trace ∧ out.ctx = c := by
    intro token rand1 tr1 clientToken htok hext hne
    refine ⟨_, csrfHandler_reject _ extractor0 next c rand rand1 now token tr1 _ _ htok
      (csrfCheck_mismatch extractor0 c token hunsafe clientToken hext hne), rfl, ?_, rfl⟩
    rcases csrfToken_trace _ c rand rand1 token tr1 htok with ⟨-, -, rfl⟩ | ⟨-, -, -, rfl⟩ <;>
      simp
  constructor
  · intro extractor token rand1 tr1 clientToken hex htok hext hne
    rw [hex0, Option.some.injEq] at hex
    subst hex
    exact key token rand1 tr1 clientToken htok hext hne
  · intro cookieToken headerToken hlookup hcookie hheader hne
    rw [csrfExtractor_header_default _ hlookup, Option.some.injEq] at hex0
    subst hex0
    refine key cookieToken rand [] headerToken
      (csrfToken_cookie _ c rand cookieToken hcookie) ?_ hne
    have hh : c.request.header HeaderXCSRFToken = some headerToken := hheader
    simp [csrfTokenFromHeader, Context.headerGet, hh]

theorem token_mismatch_is_forbidden_witness :
    CSRFWithConfig zeroConfig = some zeroMiddleware ∧
    (POST ≠ GET ∧ POST ≠ HEAD ∧ POST ≠ OPTIONS ∧ POST ≠ TRACE) ∧
    ∃ out, zeroMiddleware sampleNext
        (sampleContext POST (some (str "abc")) (some (str "abd"))) sampleRand 0 = some out ∧
      out.err = some (Error.httpError 403 (str "csrf token is invalid")) ∧
      Event.next ∉ out.trace ∧
      out.ctx = sampleContext POST (some (str "abc")) (some (str "abd")) :=
  ⟨rfl, by decide,
    (token_mismatch_is_forbidden zeroConfig zeroMiddleware rfl sampleNext
      (sampleContext POST (some (str "abc")) (some (str "abd"))) sampleRand 0 (by decide)).2
      (str "abc") (str "abd") (by decide) (by decide) (by decide) (by decide)⟩

/-- C3: when the lookup splits into the source `form` (resp. `query`) and a field
key, the middleware is built, and for every request whose method is none of GET,
HEAD, OPTIONS, TRACE and whose form field (resp. query parameter) of that key is
missing or empty, the extractor fails with "empty csrf token in form param"
(resp. "empty csrf token in query param"), the handler returns that error, the
downstream handler is not called and the context is left as it was; a non-empty
value is returned by the extractor as it is. -/
theorem empty_form_or_query_token_is_rejected (config : CSRFConfig) (tag key : GoString)
    (rest : List GoString)
    (hsplit : splitOn colon config.TokenLookup = tag :: key :: rest)
    (next : HandlerFunc) (c : Context) (rand : Rand) (now : Time)
    (hm : c.request.Method ≠ GET ∧ c.request.Method ≠ HEAD ∧ c.request.Method ≠ OPTIONS ∧
      c.request.Method ≠ TRACE) :
    ∃ mw extractor, CSRFWithConfig config = some mw ∧
      csrfExtractor (csrfDefaults config) = some extractor ∧
      (tag = str "form" →
        ((c.request.form key = none ∨ c.request.form key = some []) →
          extractor c = .error (Error.errorString (str "empty csrf token in form param")) ∧
          ∃ out, mw next c rand now = some out ∧
            out.err = some (Error.errorString (str "empty csrf token in form param")) ∧
            Event.next ∉ out.trace ∧ out.ctx = c) ∧
        (∀ v, c.request.form key = some v → v ≠ [] → extractor c = .ok v)) ∧
      (tag = str "query" →
        ((c.request.query key = none ∨ c.request.query key = some []) →
          extractor c = .error (Error.errorString (str "empty csrf token in query param")) ∧
          ∃ out, mw next c rand now = some out ∧
            out.err = some (Error.errorString (str "empty csrf token in query param")) ∧
            Event.next ∉ out.trace ∧ out.ctx = c) ∧
        (∀ v, c.request.query key = some v → v ≠ [] → extractor c = .ok v)) := by
  have hlookup := csrfDefaults_TokenLookup_of_split config tag key rest hsplit
  have hex := csrfExtractor_of_split (csrfDefaults config) tag key rest
    (by rw [hlookup]; exact hsplit)
  have hunsafe := (isSafeMethod_eq_false_iff _).mpr hm
  obtain ⟨token, rand1, tr1, htok, htr⟩ := csrfToken_total (csrfDefaults config) c rand
  have hrej : ∀ (extractor : csrfTokenExtractor) (err : Error), extractor c = .error err →
      ∃ out, csrfHandler (csrfDefaults config) extractor next c rand now = some out ∧
        out.err = some err ∧ Event.next ∉ out.trace ∧ out.ctx = c := by
    intro extractor err hext
    refine ⟨_, csrfHandler_reject _ extractor next c rand rand1 now token tr1 _ err htok
      (csrfCheck_error extractor c token hunsafe err hext), rfl, ?_, rfl⟩
    rcases htr with rfl | rfl <;> simp
  obtain ⟨ex, hexeq⟩ : ∃ ex : csrfTokenExtractor, ex =
      (if tag = str "form" then csrfTokenFromForm key
       else if tag = str "query" then csrfTokenFromQuery key
       else csrfTokenFromHeader key) := ⟨_, rfl⟩
  rw [← hexeq] at hex
  refine ⟨fun next => csrfHandler (csrfDefaults config) ex next, ex,
    by simp only [CSRFWithConfig, hex], hex, ?_, ?_⟩
  · intro hform
    subst hform
    simp only [if_true] at hexeq
    subst hexeq
    constructor
    · intro hval
      have hext : csrfTokenFromForm key c =
          .error (Error.errorString (str "empty csrf token in form param")) := by
        rcases hval with h | h <;> simp [csrfTokenFromForm, Context.FormValue, h]
      exact ⟨hext, hrej _ _ hext⟩
    · intro v hv hne
      simp [csrfTokenFromForm, Context.FormValue, hv, hne]
  · intro hquery
    have hq : str "query" ≠ str "form" := by decide
    subst hquery
    simp only [hq, if_false, if_true] at hexeq
    subst hexeq
    constructor
    · intro hval
      have hext : csrfTokenFromQuery key c =
          .error (Error.errorString (str "empty csrf token in query param")) := by
        rcases hval with h | h <;> simp [csrfTokenFromQuery, Context.QueryParam, h]
      exact ⟨hext, hrej _ _ hext⟩
    · intro v hv hne
      simp [csrfTokenFromQuery, Context.QueryParam, hv, hne]

theorem empty_form_or_query_token_is_rejected_witness :
    (splitOn colon formConfig.TokenLookup = [str "form", str "csrf"] ∧
      splitOn colon queryConfig.TokenLookup = [str "query", str "csrf"]) ∧
    (POST ≠ GET ∧ POST ≠ HEAD ∧ POST ≠ OPTIONS ∧ POST ≠ TRACE) ∧
    (∃ out, formMiddleware sampleNext (sampleContext POST (some (str "abc")) none)
        sampleRand 0 = some out ∧
      out.err = some (Error.errorString (str "empty csrf token in form param")) ∧
      Event.next ∉ out.trace) ∧
    (∃ out, queryMiddleware sampleNext (sampleContext POST (some (str "abc")) (some []))
        sampleRand 0 = some out ∧
      out.err = some (Error.errorString (str "empty csrf token in query param")) ∧
      Event.next ∉ out.trace) := by
  refine ⟨⟨by decide, by decide⟩, by decide, ?_, ?_⟩
  · obtain ⟨mw, extractor, hmw, -, hform, -⟩ :=
      empty_form_or_query_token_is_rejected formConfig (str "form") (str "csrf") []
        (by decide) sampleNext (sampleContext POST (some (str "abc")) none) sampleRand 0
        (by decide)
    have hmw2 : CSRFWithConfig formConfig = some formMiddleware := rfl
    rw [hmw2, Option.some.injEq] at hmw
    subst hmw
    obtain ⟨-, out, hout, herr, hnext, -⟩ := (hform rfl).1 (Or.inl (by decide))
    exact ⟨out, hout, herr, hnext⟩
  · obtain ⟨mw, extractor, hmw, -, -, hquery⟩ :=
      empty_form_or_query_token_is_rejected queryConfig (str "query") (str "csrf") []
        (by decide) sampleNext (sampleContext POST (some (str "abc")) (some [])) sampleRand 0
        (by decide)
    have hmw2 : CSRFWithConfig queryConfig = some queryMiddleware := rfl
    rw [hmw2, Option.some.injEq] at hmw
    subst hmw
    obtain ⟨-, out, hout, herr, hnext, -⟩ := (hquery rfl).1 (Or.inr (by decide))
    exact ⟨out, hout, herr, hnext⟩

/-- C4, the claim as stated fails: a POST without cookie and without header is
answered with 403 and no cookie is set on the response; a POST whose form field is
missing is answered with the extractor's error and no cookie is set; and with a
maximal age of 9223372037 seconds the nanosecond count wraps in `int64`, so the
cookie set for a GET at time 1000 expires at 1000 - 9223372036709551616, not at
1000 + 9223372037 seconds. -/
theorem rejected_request_carries_no_cookie :
    CSRFWithConfig zeroConfig = some zeroMiddleware ∧
    (zeroMiddleware sampleNext (sampleContext POST none none) sampleRand 0).map
        (fun out => (out.err, out.ctx.respCookies)) =
      some (some (Error.httpError 403 (str "csrf token is invalid")), []) ∧
    CSRFWithConfig formConfig = some formMiddleware ∧
    (formMiddleware sampleNext (sampleContext POST (some (str "abc")) none) sampleRand 0).map
        (fun out => (out.err, out.ctx.respCookies)) =
      some (some (Error.errorString (str "empty csrf token in form param")), []) ∧
    CSRFWithConfig longLivedConfig = some longLivedMiddleware ∧
    (longLivedMiddleware sampleNext (sampleContext GET (some (str "abc")) none) sampleRand
        1000).map (fun out => out.ctx.respCookies.map Cookie.Expires) =
      some [1000 - 9223372036709551616] ∧
    (1000 - 9223372036709551616 : Int) ≠ 1000 + 9223372037 * 1000000000 := by
  refine ⟨rfl, by decide, rfl, by decide, rfl, by decide, by decide⟩

/-- C4, amended: for every request the middleware does not reject (a safe method,
or an extractor that returns the session token), the context handed to the
downstream handler carries, after the cookies already set, one cookie with the
configured name, the session token as value, the configured path and domain
(empty when not configured), the configured secure and http-only flags, and the
expiry `now` plus the `int64` nanosecond count of max-age seconds, which is
`now` + max-age seconds when max-age is between -9223372036 and 9223372036. -/
theorem accepted_request_carries_cookie (config : CSRFConfig) (mw : MiddlewareFunc)
    (hmw : CSRFWithConfig config = some mw) (extractor : csrfTokenExtractor)
    (hex : csrfExtractor (csrfDefaults config) = some extractor)
    (next : HandlerFunc) (c : Context) (rand rand1 : Rand) (now : Time) (token : GoString)
    (tr1 : List Event)
    (htok : csrfToken (csrfDefaults config) c rand = some (token, rand1, tr1))
    (hacc : (c.request.Method = GET ∨ c.request.Method = HEAD ∨ c.request.Method = OPTIONS ∨
      c.request.Method = TRACE) ∨ extractor c = .ok token) :
    ∃ out c1, mw next c rand now = some out ∧ (out.ctx, out.err) = next c1 ∧
      c1.respCookies = c.respCookies ++
        [{ Name := (csrfDefaults config).CookieName, Value := token,
           Path := config.CookiePath, Domain := config.CookieDomain,
           Expires := now + durationSeconds (csrfDefaults config).CookieMaxAge,
           Secure := config.CookieSecure, HTTPOnly := config.CookieHTTPOnly }] ∧
      (-9223372036 ≤ (csrfDefaults config).CookieMaxAge ∧
        (csrfDefaults config).CookieMaxAge ≤ 9223372036 →
        durationSeconds (csrfDefaults config).CookieMaxAge =
          (csrfDefaults config).CookieMaxAge * 1000000000) := by
  obtain ⟨extractor0, hex0, rfl⟩ := CSRFWithConfig_eq config mw hmw
  rw [hex, Option.some.injEq] at hex0
  subst hex0
  obtain ⟨tr2, -, hrun⟩ := csrfHandler_accept (csrfDefaults config) extractor next c rand rand1
    now token tr1 htok hacc
  obtain ⟨hdom, hpath, hsec, hhttp⟩ := csrfDefaults_rest config
  refine ⟨_, csrfRespond (csrfDefaults config) token now c, hrun, rfl, ?_,
    fun h => durationSeconds_eq _ h.1 h.2⟩
  simp [csrfRespond, Context.headerAdd, Context.Set, Context.SetCookie, csrfCookie_eq,
    hdom, hpath, hsec, hhttp]

theorem accepted_request_carries_cookie_witness :
    CSRFWithConfig zeroConfig = some zeroMiddleware ∧
    csrfExtractor (csrfDefaults zeroConfig) = some (csrfTokenFromHeader HeaderXCSRFToken) ∧
    csrfToken (csrfDefaults zeroConfig) (sampleContext POST (some (str "abc")) (some (str "abc")))
      sampleRand = some (str "abc", sampleRand, []) ∧
    csrfTokenFromHeader HeaderXCSRFToken
      (sampleContext POST (some (str "abc")) (some (str "abc"))) = .ok (str "abc") ∧
    ∃ out c1, zeroMiddleware sampleNext (sampleContext POST (some (str "abc")) (some (str "abc")))
        sampleRand 1000 = some out ∧ (out.ctx, out.err) = sampleNext c1 ∧
      c1.respCookies = [] ++
        [{ Name := (csrfDefaults zeroConfig).CookieName, Value := str "abc",
           Path := zeroConfig.CookiePath, Domain := zeroConfig.CookieDomain,
           Expires := 1000 + durationSeconds (csrfDefaults zeroConfig).CookieMaxAge,
           Secure := zeroConfig.CookieSecure, HTTPOnly := zeroConfig.CookieHTTPOnly }] ∧
      (-9223372036 ≤ (csrfDefaults zeroConfig).CookieMaxAge ∧
        (csrfDefaults zeroConfig).CookieMaxAge ≤ 9223372036 →
        durationSeconds (csrfDefaults zeroConfig).CookieMaxAge =
          (csrfDefaults zeroConfig).CookieMaxAge * 1000000000) :=
  ⟨rfl, rfl, rfl, rfl,
    accepted_request_carries_cookie zeroConfig zeroMiddleware rfl
      (csrfTokenFromHeader HeaderXCSRFToken) rfl sampleNext
      (sampleContext POST (some (str "abc")) (some (str "abc"))) sampleRand sampleRand 1000
      (str "abc") [] rfl (Or.inr rfl)⟩

/-- C5: for every request that carries a readable CSRF cookie of value `V` and that
the middleware does not reject (a safe method, or an extractor that returns `V`),
no token is generated and the random source is not drawn from; the cookie set on
the response has the configured name and the value `V`, and the value stored
under the configured context key is `V`, whatever the bytes and the length of
`V`. -/
theorem cookie_token_is_reused (config : CSRFConfig) (mw : MiddlewareFunc)
    (hmw : CSRFWithConfig config = some mw) (extractor : csrfTokenExtractor)
    (hex : csrfExtractor (csrfDefaults config) = some extractor)
    (next : HandlerFunc) (c : Context) (rand : Rand) (now : Time) (V : GoString)
    (hcookie : c.request.cookie (csrfDefaults config).CookieName = some V)
    (hacc : (c.request.Method = GET ∨ c.request.Method = HEAD ∨ c.request.Method = OPTIONS ∨
      c.request.Method = TRACE) ∨ extractor c = .ok V) :
    ∃ out c1 k, mw next c rand now = some out ∧ (out.ctx, out.err) = next c1 ∧
      (∀ t, Event.generate t ∉ out.trace) ∧ out.rand = rand ∧
      c1.respCookies = c.respCookies ++ [k] ∧
      k.Name = (csrfDefaults config).CookieName ∧ k.Value = V ∧
      c1.store (csrfDefaults config).ContextKey = some V := by
  obtain ⟨extractor0, hex0, rfl⟩ := CSRFWithConfig_eq config mw hmw
  rw [hex, Option.some.injEq] at hex0
  subst hex0
  have htok := csrfToken_cookie (csrfDefaults config) c rand V hcookie
  obtain ⟨tr2, htr2, hrun⟩ := csrfHandler_accept (csrfDefaults config) extractor next c rand
    rand now V [] htok hacc
  refine ⟨_, csrfRespond (csrfDefaults config) V now c, csrfCookie (csrfDefaults config) V now,
    hrun, rfl, ?_, rfl, ?_, ?_, ?_, ?_⟩
  · intro t
    rcases htr2 with rfl | rfl <;> simp [csrfRespondTrace]
  · simp [csrfRespond, Context.headerAdd, Context.Set, Context.SetCookie]
  · rw [csrfCookie_eq]
  · rw [csrfCookie_eq]
  · simp [csrfRespond, Context.headerAdd, Context.Set, Context.SetCookie]

theorem cookie_token_is_reused_witness :
    CSRFWithConfig zeroConfig = some zeroMiddleware ∧
    csrfExtractor (csrfDefaults zeroConfig) = some (csrfTokenFromHeader HeaderXCSRFToken) ∧
    (sampleContext POST (some (str "x")) (some (str "x"))).request.cookie
      (csrfDefaults zeroConfig).CookieName = some (str "x") ∧
    csrfTokenFromHeader HeaderXCSRFToken (sampleContext POST (some (str "x")) (some (str "x"))) =
      .ok (str "x") ∧
    ∃ out c1 k, zeroMiddleware sampleNext (sampleContext POST (some (str "x")) (some (str "x")))
        sampleRand 0 = some out ∧ (out.ctx, out.err) = sampleNext c1 ∧
      (∀ t, Event.generate t ∉ out.trace) ∧ out.rand = sampleRand ∧
      c1.respCookies =
        (sampleContext POST (some (str "x")) (some (str "x"))).respCookies ++ [k] ∧
      k.Name = (csrfDefaults zeroConfig).CookieName ∧ k.Value = str "x" ∧
      c1.store (csrfDefaults zeroConfig).ContextKey = some (str "x") :=
  ⟨rfl, rfl, rfl, rfl,
    cookie_token_is_reused zeroConfig zeroMiddleware rfl (csrfTokenFromHeader HeaderXCSRFToken)
      rfl sampleNext (sampleContext POST (some (str "x")) (some (str "x"))) sampleRand 0
      (str "x") rfl (Or.inr rfl)⟩

/-- C6: for every length `n` and every stream of draws, `generateCSRFToken n`
returns (it does not panic); the alphabet has 62 bytes; the token has exactly `n`
bytes, each of them in `a`-`z`, `A`-`Z` or `0`-`9`; and for every position `i` the
index `draw mod 62` of the `i`-th 63-bit draw is within the alphabet and the
token's byte at `i` is the alphabet's byte at that index. -/
theorem generateCSRFToken_alphanumeric (n : Nat) (rand : Rand) :
    chars.length = 62 ∧
    ∃ token, generateCSRFToken n rand = some (token, { rand with pos := rand.pos + n }) ∧
      token.length = n ∧
      (∀ b ∈ token, (97 ≤ b.val ∧ b.val ≤ 122) ∨ (65 ≤ b.val ∧ b.val ≤ 90) ∨
        (48 ≤ b.val ∧ b.val ≤ 57)) ∧
      (∀ i, i < n → rand.draws (rand.pos + i) % 2 ^ 63 % 62 < chars.length ∧
        ∃ b, chars[rand.draws (rand.pos + i) % 2 ^ 63 % 62]? = some b ∧ token[i]? = some b) := by
  obtain ⟨token, hgen, hlen, hpos⟩ := generateLoop_spec n rand
  refine ⟨chars_length, token, hgen, hlen, ?_, ?_⟩
  · intro b hb
    obtain ⟨i, hi, hib⟩ := List.getElem_of_mem hb
    obtain ⟨b2, hchars, htok⟩ := hpos i (hlen ▸ hi)
    rw [List.getElem?_eq_getElem hi, hib, Option.some.injEq] at htok
    subst htok
    exact chars_alphanumeric b (List.getElem?_mem hchars)
  · intro i hi
    refine ⟨?_, hpos i hi⟩
    rw [chars_length]
    exact Nat.mod_lt _ (by decide)

/-- C7: a middleware built from any configuration always returns, and every token
its handler generates has the length of the defaulted configuration, which is at
least 1 for every configuration and exactly 32 when the configured length is 0.
When the request has no CSRF cookie, the session token of the request is the
token that `generateCSRFToken` returns for that length: it is the first call of
the log, the random source is left as the generator leaves it, a request with a
safe method gets it as the value of the cookie set and under the context key,
and for another method it is the token the client token is compared with (403
when they differ, the downstream handler on the context carrying it when they
are equal). -/
theorem generated_token_is_never_empty (config : CSRFConfig) (mw : MiddlewareFunc)
    (hmw : CSRFWithConfig config = some mw) (extractor : csrfTokenExtractor)
    (hex : csrfExtractor (csrfDefaults config) = some extractor)
    (next : HandlerFunc) (c : Context) (rand : Rand) (now : Time) :
    ∃ out, mw next c rand now = some out ∧
      (c.request.cookie (csrfDefaults config).CookieName = none →
        ∃ token, Event.generate token ∈ out.trace) ∧
      (∀ token, Event.generate token ∈ out.trace →
        token.length = (csrfDefaults config).TokenLength ∧ 0 < token.length ∧
        (config.TokenLength = 0 → token.length = 32)) ∧
      (c.request.cookie (csrfDefaults config).CookieName = none →
        ∃ token rand1,
          generateCSRFToken (csrfDefaults config).TokenLength rand = some (token, rand1) ∧
          token.length = (csrfDefaults config).TokenLength ∧ 0 < token.length ∧
          (config.TokenLength = 0 → token.length = 32) ∧
          out.rand = rand1 ∧ out.trace.head? = some (Event.generate token) ∧
          ((c.request.Method = GET ∨ c.request.Method = HEAD ∨ c.request.Method = OPTIONS ∨
              c.request.Method = TRACE) →
            (out.ctx, out.err) = next (csrfRespond (csrfDefaults config) token now c) ∧
            (csrfRespond (csrfDefaults config) token now c).respCookies =
              c.respCookies ++ [csrfCookie (csrfDefaults config) token now] ∧
            (csrfCookie (csrfDefaults config) token now).Value = token ∧
            (csrfRespond (csrfDefaults config) token now c).store
              (csrfDefaults config).ContextKey = some token ∧
            Event.setCookie (csrfCookie (csrfDefaults config) token now) ∈ out.trace ∧
            Event.set (csrfDefaults config).ContextKey token ∈ out.trace) ∧
          ((c.request.Method ≠ GET ∧ c.request.Method ≠ HEAD ∧ c.request.Method ≠ OPTIONS ∧
              c.request.Method ≠ TRACE) →
            ∀ clientToken, extractor c = .ok clientToken →
              Event.validate token clientToken ∈ out.trace ∧
              (clientToken ≠ token →
                out.err = some (Error.httpError 403 (str "csrf token is invalid")) ∧
                out.ctx = c) ∧
              (clientToken = token →
                (out.ctx, out.err) =
                  next (csrfRespond (csrfDefaults config) token now c)))) := by
  obtain ⟨extractor0, hex0, rfl⟩ := CSRFWithConfig_eq config mw hmw
  rw [hex, Option.some.injEq] at hex0
  subst hex0
  obtain ⟨tokS, rand1, tr1, htokS, -⟩ := csrfToken_total (csrfDefaults config) c rand
  obtain ⟨out, tr2, hrun, hrand, htrace, hgen⟩ := csrfHandler_total (csrfDefaults config)
    extractor next c rand rand1 now tokS tr1 htokS
  have hpos := csrfDefaults_TokenLength_pos config
  have hlen32 : config.TokenLength = 0 → (csrfDefaults config).TokenLength = 32 := by
    intro h0
    rw [csrfDefaults_eq]
    simp [h0]
  refine ⟨out, hrun, ?_, ?_, ?_⟩
  · intro hnone
    rcases csrfToken_trace _ c rand rand1 tokS tr1 htokS with ⟨hc, -, -⟩ | ⟨-, -, -, rfl⟩
    · rw [Context.Cookie, hnone] at hc
      exact absurd hc (by simp)
    · exact ⟨tokS, by simp [htrace]⟩
  · intro t ht
    rw [htrace, List.mem_append] at ht
    rcases ht with ht | ht
    · rcases csrfToken_trace _ c rand rand1 tokS tr1 htokS with
        ⟨-, -, rfl⟩ | ⟨-, -, hlen, rfl⟩
      · simp at ht
      · simp only [List.mem_singleton, Event.generate.injEq] at ht
        subst ht
        exact ⟨hlen, hlen ▸ hpos, fun h0 => hlen.trans (hlen32 h0)⟩
    · exact absurd ht (hgen t)
  · intro hnone
    rcases csrfToken_trace _ c rand rand1 tokS tr1 htokS with ⟨hc, -, -⟩ | ⟨-, hgenTok, hlen, rfl⟩
    · rw [Context.Cookie, hnone] at hc
      exact absurd hc (by simp)
    · refine ⟨tokS, rand1, hgenTok, hlen, hlen ▸ hpos, fun h0 => hlen.trans (hlen32 h0), hrand,
        by simp [htrace], ?_, ?_⟩
      · intro hm
        have hsafe := (isSafeMethod_eq_true_iff _).mpr hm
        have h := csrfHandler_pass (csrfDefaults config) extractor next c rand rand1 now tokS _ _
          htokS (csrfCheck_safe extractor c tokS hsafe)
        have hout := Option.some.inj (hrun.symm.trans h)
        subst hout
        refine ⟨rfl, ?_, ?_, ?_, ?_, ?_⟩
        · simp [csrfRespond, Context.headerAdd, Context.Set, Context.SetCookie]
        · rw [csrfCookie_eq]
        · simp [csrfRespond, Context.headerAdd, Context.Set, Context.SetCookie]
        · simp [csrfRespondTrace]
        · simp [csrfRespondTrace]
      · intro hm clientToken hext
        have hunsafe := (isSafeMethod_eq_false_iff _).mpr hm
        by_cases heq : clientToken = tokS
        · subst heq
          have h := csrfHandler_pass (csrfDefaults config) extractor next c rand rand1 now
            clientToken _ _ htokS (csrfCheck_match extractor c clientToken hunsafe hext)
          have hout := Option.some.inj (hrun.symm.trans h)
          subst hout
          exact ⟨by simp, fun hne => absurd rfl hne, fun _ => rfl⟩
        · have h := csrfHandler_reject (csrfDefaults config) extractor next c rand rand1 now
            tokS _ _ _ htokS (csrfCheck_mismatch extractor c tokS hunsafe clientToken hext heq)
          have hout := Option.some.inj (hrun.symm.trans h)
          subst hout
          exact ⟨by simp, fun _ => ⟨rfl, rfl⟩, fun h0 => absurd h0 heq⟩

theorem generated_token_is_never_empty_witness :
    CSRFWithConfig zeroConfig = some zeroMiddleware ∧
    csrfExtractor (csrfDefaults zeroConfig) = some (csrfTokenFromHeader HeaderXCSRFToken) ∧
    (zeroMiddleware sampleNext (sampleContext GET none none) sampleRand 0).map
        (fun out => out.ctx.respCookies.map (fun k => k.Value.length)) = some [32] ∧
    ∃ out, zeroMiddleware sampleNext (sampleContext GET none none) sampleRand 0 = some out ∧
      ((sampleContext GET none none).request.cookie (csrfDefaults zeroConfig).CookieName = none →
        ∃ token, Event.generate token ∈ out.trace) ∧
      (∀ token, Event.generate token ∈ out.trace →
        token.length = (csrfDefaults zeroConfig).TokenLength ∧ 0 < token.length ∧
        (zeroConfig.TokenLength = 0 → token.length = 32)) ∧
      ((sampleContext GET none none).request.cookie (csrfDefaults zeroConfig).CookieName = none →
        ∃ token rand1,
          generateCSRFToken (csrfDefaults zeroConfig).TokenLength sampleRand =
            some (token, rand1) ∧
          token.length = (csrfDefaults zeroConfig).TokenLength ∧ 0 < token.length ∧
          (zeroConfig.TokenLength = 0 → token.length = 32) ∧
          out.rand = rand1 ∧ out.trace.head? = some (Event.generate token) ∧
          (((sampleContext GET none none).request.Method = GET ∨
              (sampleContext GET none none).request.Method = HEAD ∨
              (sampleContext GET none none).request.Method = OPTIONS ∨
              (sampleContext GET none none).request.Method = TRACE) →
            (out.ctx, out.err) =
              sampleNext (csrfRespond (csrfDefaults zeroConfig) token 0
                (sampleContext GET none none)) ∧
            (csrfRespond (csrfDefaults zeroConfig) token 0
                (sampleContext GET none none)).respCookies =
              (sampleContext GET none none).respCookies ++
                [csrfCookie (csrfDefaults zeroConfig) token 0] ∧
            (csrfCookie (csrfDefaults zeroConfig) token 0).Value = token ∧
            (csrfRespond (csrfDefaults zeroConfig) token 0 (sampleContext GET none none)).store
              (csrfDefaults zeroConfig).ContextKey = some token ∧
            Event.setCookie (csrfCookie (csrfDefaults zeroConfig) token 0) ∈ out.trace ∧
            Event.set (csrfDefaults zeroConfig).ContextKey token ∈ out.trace) ∧
          (((sampleContext GET none none).request.Method ≠ GET ∧
              (sampleContext GET none none).request.Method ≠ HEAD ∧
              (sampleContext GET none none).request.Method ≠ OPTIONS ∧
              (sampleContext GET none none).request.Method ≠ TRACE) →
            ∀ clientToken,
              csrfTokenFromHeader HeaderXCSRFToken (sampleContext GET none none) =
                .ok clientToken →
              Event.validate token clientToken ∈ out.trace ∧
              (clientToken ≠ token →
                out.err = some (Error.httpError 403 (str "csrf token is invalid")) ∧
                out.ctx = sampleContext GET none none) ∧
              (clientToken = token →
                (out.ctx, out.err) =
                  sampleNext (csrfRespond (csrfDefaults zeroConfig) token 0
                    (sampleContext GET none none))))) :=
  ⟨rfl, rfl, by decide, generated_token_is_never_empty zeroConfig zeroMiddleware rfl
    (csrfTokenFromHeader HeaderXCSRFToken) rfl sampleNext (sampleContext GET none none)
    sampleRand 0⟩

/-- C8: `validateCSRFToken token clientToken` is true exactly when the two strings
are the same sequence of bytes, that is, have the same length and the same byte at
every position; a token compared with itself gives true, the empty string
included. -/
theorem validateCSRFToken_true_iff_equal (token clientToken : GoString) :
    (validateCSRFToken token clientToken = true ↔ token = clientToken) ∧
    (validateCSRFToken token clientToken = true ↔
      token.length = clientToken.length ∧ ∀ i : Nat, token[i]? = clientToken[i]?) ∧
    validateCSRFToken token token = true ∧
    validateCSRFToken [] [] = true := by
  refine ⟨validateCSRFToken_iff token clientToken, ?_, (validateCSRFToken_iff token token).mpr rfl,
    (validateCSRFToken_iff [] []).mpr rfl⟩
  rw [validateCSRFToken_iff]
  constructor
  · rintro rfl
    exact ⟨rfl, fun _ => rfl⟩
  · rintro ⟨-, h⟩
    exact List.ext_getElem? h

/-- C9: for every request the middleware does not reject (a safe method, or an
extractor that returns the session token), the handler returns; the downstream
handler is called exactly once, as the last call, right after `SetCookie`, `Set`
and the `Vary` header addition; the context it receives has the cookie appended,
the token stored under the context key and `Cookie` appended to `Vary`; and the
context and error the handler leaves are exactly those of the downstream
handler. -/
theorem accepted_request_runs_next_once (config : CSRFConfig) (mw : MiddlewareFunc)
    (hmw : CSRFWithConfig config = some mw) (extractor : csrfTokenExtractor)
    (hex : csrfExtractor (csrfDefaults config) = some extractor)
    (next : HandlerFunc) (c : Context) (rand rand1 : Rand) (now : Time) (token : GoString)
    (tr1 : List Event)
    (htok : csrfToken (csrfDefaults config) c rand = some (token, rand1, tr1))
    (hacc : (c.request.Method = GET ∨ c.request.Method = HEAD ∨ c.request.Method = OPTIONS ∨
      c.request.Method = TRACE) ∨ extractor c = .ok token) :
    ∃ out pre c1, mw next c rand now = some out ∧
      (out.ctx, out.err) = next c1 ∧
      c1 = ((c.SetCookie (csrfCookie (csrfDefaults config) token now)).Set
        (csrfDefaults config).ContextKey token).headerAdd HeaderVary HeaderCookie ∧
      c1.respCookies = c.respCookies ++ [csrfCookie (csrfDefaults config) token now] ∧
      c1.store (csrfDefaults config).ContextKey = some token ∧
      c1.respHeader HeaderVary = c.respHeader HeaderVary ++ [HeaderCookie] ∧
      out.trace = pre ++ [Event.setCookie (csrfCookie (csrfDefaults config) token now),
        Event.set (csrfDefaults config).ContextKey token,
        Event.headerAdd HeaderVary HeaderCookie, Event.next] ∧
      Event.next ∉ pre ∧ out.trace.count Event.next = 1 := by
  obtain ⟨extractor0, hex0, rfl⟩ := CSRFWithConfig_eq config mw hmw
  rw [hex, Option.some.injEq] at hex0
  subst hex0
  obtain ⟨tr2, htr2, hrun⟩ := csrfHandler_accept (csrfDefaults config) extractor next c rand
    rand1 now token tr1 htok hacc
  have hpre : Event.next ∉ tr1 ++ tr2 := by
    rcases csrfToken_trace _ c rand rand1 token tr1 htok with ⟨-, -, rfl⟩ | ⟨-, -, -, rfl⟩ <;>
      rcases htr2 with rfl | rfl <;> simp
  refine ⟨_, tr1 ++ tr2, csrfRespond (csrfDefaults config) token now c, hrun, rfl, rfl, ?_, ?_,
    ?_, ?_, hpre, ?_⟩
  · simp [csrfRespond, Context.headerAdd, Context.Set, Context.SetCookie]
  · simp [csrfRespond, Context.headerAdd, Context.Set, Context.SetCookie]
  · simp [csrfRespond, Context.headerAdd, Context.Set, Context.SetCookie]
  · simp [csrfRespondTrace]
  · have hcount : List.count Event.next (tr1 ++ tr2) = 0 := List.count_eq_zero.mpr hpre
    simp only [csrfRespondTrace, List.append_assoc, List.count_append] at hcount ⊢
    simp only [List.count_cons, List.count_nil]
    simp only [beq_iff_eq, reduceCtorEq, if_false, if_true]
    omega

theorem accepted_request_runs_next_once_witness :
    CSRFWithConfig zeroConfig = some zeroMiddleware ∧
    csrfExtractor (csrfDefaults zeroConfig) = some (csrfTokenFromHeader HeaderXCSRFToken) ∧
    csrfToken (csrfDefaults zeroConfig) (sampleContext GET (some (str "abc")) none) sampleRand =
      some (str "abc", sampleRand, []) ∧
    (sampleContext GET (some (str "abc")) none).request.Method = GET ∧
    ∃ out pre c1, zeroMiddleware failingNext (sampleContext GET (some (str "abc")) none)
        sampleRand 7 = some out ∧
      (out.ctx, out.err) = failingNext c1 ∧
      c1 = (((sampleContext GET (some (str "abc")) none).SetCookie
        (csrfCookie (csrfDefaults zeroConfig) (str "abc") 7)).Set
        (csrfDefaults zeroConfig).ContextKey (str "abc")).headerAdd HeaderVary HeaderCookie ∧
      c1.respCookies = (sampleContext GET (some (str "abc")) none).respCookies ++
        [csrfCookie (csrfDefaults zeroConfig) (str "abc") 7] ∧
      c1.store (csrfDefaults zeroConfig).ContextKey = some (str "abc") ∧
      c1.respHeader HeaderVary =
        (sampleContext GET (some (str "abc")) none).respHeader HeaderVary ++ [HeaderCookie] ∧
      out.trace = pre ++ [Event.setCookie (csrfCookie (csrfDefaults zeroConfig) (str "abc") 7),
        Event.set (csrfDefaults zeroConfig).ContextKey (str "abc"),
        Event.headerAdd HeaderVary HeaderCookie, Event.next] ∧
      Event.next ∉ pre ∧ out.trace.count Event.next = 1 :=
  ⟨rfl, rfl, rfl, rfl,
    accepted_request_runs_next_once zeroConfig zeroMiddleware rfl
      (csrfTokenFromHeader HeaderXCSRFToken) rfl failingNext
      (sampleContext GET (some (str "abc")) none) sampleRand sampleRand 7 (str "abc") [] rfl
      (Or.inl (Or.inl rfl))⟩

/-- C10: the defaulting replaces `TokenLength`, `TokenLookup`, `ContextKey`,
`CookieName` and `CookieMaxAge` by 32, "header:X-CSRF-Token", "csrf", "_csrf" and
86400 exactly when they are 0 or the empty string, and leaves every other value
and the fields `CookieDomain`, `CookiePath`, `CookieSecure` and `CookieHTTPOnly` as
they are; defaulting twice is defaulting once, and the middleware built from the
defaulted configuration is the one built from the configuration itself. -/
theorem csrfDefaults_fills_zero_fields (config : CSRFConfig) :
    csrfDefaults config =
      { TokenLength := if config.TokenLength = 0 then 32 else config.TokenLength
        TokenLookup :=
          if config.TokenLookup = [] then str "header:X-CSRF-Token" else config.TokenLookup
        ContextKey := if config.ContextKey = [] then str "csrf" else config.ContextKey
        CookieName := if config.CookieName = [] then str "_csrf" else config.CookieName
        CookieDomain := config.CookieDomain
        CookiePath := config.CookiePath
        CookieMaxAge := if config.CookieMaxAge = 0 then 86400 else config.CookieMaxAge
        CookieSecure := config.CookieSecure
        CookieHTTPOnly := config.CookieHTTPOnly } ∧
    csrfDefaults (csrfDefaults config) = csrfDefaults config ∧
    CSRFWithConfig (csrfDefaults config) = CSRFWithConfig config := by
  refine ⟨csrfDefaults_eq config, csrfDefaults_idem config, ?_⟩
  unfold CSRFWithConfig
  simp only [csrfDefaults_idem]

/-- C11: for every request the middleware does not reject, the response header
map of the context handed to the downstream handler has, under `Vary`, the values
it had before, in the same order, followed by `Cookie`, and under every other
name the values it had before.  (The cookie of `SetCookie` is kept by the
framework's cookie abstraction, apart from the header map.) -/
theorem vary_cookie_is_appended (config : CSRFConfig) (mw : MiddlewareFunc)
    (hmw : CSRFWithConfig config = some mw) (extractor : csrfTokenExtractor)
    (hex : csrfExtractor (csrfDefaults config) = some extractor)
    (next : HandlerFunc) (c : Context) (rand rand1 : Rand) (now : Time) (token : GoString)
    (tr1 : List Event)
    (htok : csrfToken (csrfDefaults config) c rand = some (token, rand1, tr1))
    (hacc : (c.request.Method = GET ∨ c.request.Method = HEAD ∨ c.request.Method = OPTIONS ∨
      c.request.Method = TRACE) ∨ extractor c = .ok token) :
    ∃ out c1, mw next c rand now = some out ∧ (out.ctx, out.err) = next c1 ∧
      c1.respHeader (str "Vary") = c.respHeader (str "Vary") ++ [str "Cookie"] ∧
      (∀ k, k ≠ str "Vary" → c1.respHeader k = c.respHeader k) := by
  obtain ⟨extractor0, hex0, rfl⟩ := CSRFWithConfig_eq config mw hmw
  rw [hex, Option.some.injEq] at hex0
  subst hex0
  obtain ⟨tr2, -, hrun⟩ := csrfHandler_accept (csrfDefaults config) extractor next c rand rand1
    now token tr1 htok hacc
  refine ⟨_, csrfRespond (csrfDefaults config) token now c, hrun, rfl, ?_, ?_⟩
  · simp [csrfRespond, Context.headerAdd, Context.Set, Context.SetCookie, HeaderVary,
      HeaderCookie]
  · intro k hk
    simp [csrfRespond, Context.headerAdd, Context.Set, Context.SetCookie, HeaderVary, hk]

theorem vary_cookie_is_appended_witness :
    CSRFWithConfig zeroConfig = some zeroMiddleware ∧
    csrfExtractor (csrfDefaults zeroConfig) = some (csrfTokenFromHeader HeaderXCSRFToken) ∧
    csrfToken (csrfDefaults zeroConfig) variedContext sampleRand =
      some (str "abc", sampleRand, []) ∧
    variedContext.request.Method = GET ∧
    ∃ out c1, zeroMiddleware sampleNext variedContext sampleRand 0 = some out ∧
      (out.ctx, out.err) = sampleNext c1 ∧
      c1.respHeader (str "Vary") = [str "Accept-Encoding", str "Origin"] ++ [str "Cookie"] ∧
      (∀ k, k ≠ str "Vary" → c1.respHeader k = variedContext.respHeader k) :=
  ⟨rfl, rfl, rfl, rfl,
    vary_cookie_is_appended zeroConfig zeroMiddleware rfl (csrfTokenFromHeader HeaderXCSRFToken)
      rfl sampleNext variedContext sampleRand sampleRand 0 (str "abc") [] rfl
      (Or.inl (Or.inl rfl))⟩

/-- C12, the claim as stated fails: for the lookup `header`, which has no `:`,
the split has the single part `header`, the access to the second part is out of
range and the construction panics. -/
theorem construction_panics_without_colon :
    splitOn colon (csrfDefaults noColonConfig).TokenLookup = [str "header"] ∧
    (splitOn colon (csrfDefaults noColonConfig).TokenLookup)[1]? = none ∧
    (CSRFWithConfig noColonConfig).isNone = true := by
  refine ⟨by decide, by decide, rfl⟩

/-- C12, amended: for every configuration whose lookup is empty (it is then
defaulted) or contains a `:`, the split of the defaulted lookup has a source tag
and a field key as its first two parts, the access to the second part is in
range, one extractor bound to that field key is built (the header, form or query
extractor) and the construction returns the middleware of that extractor. -/
theorem construction_succeeds_with_colon (config : CSRFConfig)
    (h : config.TokenLookup = [] ∨ colon ∈ config.TokenLookup) :
    ∃ tag key rest extractor mw,
      splitOn colon (csrfDefaults config).TokenLookup = tag :: key :: rest ∧
      (splitOn colon (csrfDefaults config).TokenLookup)[1]? = some key ∧
      csrfExtractor (csrfDefaults config) = some extractor ∧
      (extractor = csrfTokenFromHeader key ∨ extractor = csrfTokenFromForm key ∨
        extractor = csrfTokenFromQuery key) ∧
      CSRFWithConfig config = some mw ∧
      mw = fun next => csrfHandler (csrfDefaults config) extractor next := by
  obtain ⟨rest, ps, -, -, hsplit⟩ :=
    splitOn_of_mem colon _ (csrfDefaults_TokenLookup_mem config h)
  have hex := csrfExtractor_of_split (csrfDefaults config) _ _ ps hsplit
  refine ⟨_, _, ps, _, _, hsplit, by rw [hsplit]; simp, hex, ?_,
    CSRFWithConfig_of_extractor config _ hex, rfl⟩
  split_ifs
  · exact Or.inr (Or.inl rfl)
  · exact Or.inr (Or.inr rfl)
  · exact Or.inl rfl

theorem construction_succeeds_with_colon_witness :
    (formConfig.TokenLookup = [] ∨ colon ∈ formConfig.TokenLookup) ∧
    ∃ tag key rest extractor mw,
      splitOn colon (csrfDefaults formConfig).TokenLookup = tag :: key :: rest ∧
      (splitOn colon (csrfDefaults formConfig).TokenLookup)[1]? = some key ∧
      csrfExtractor (csrfDefaults formConfig) = some extractor ∧
      (extractor = csrfTokenFromHeader key ∨ extractor = csrfTokenFromForm key ∨
        extractor = csrfTokenFromQuery key) ∧
      CSRFWithConfig formConfig = some mw ∧
      mw = fun next => csrfHandler (csrfDefaults formConfig) extractor next :=
  ⟨Or.inr (by decide), construction_succeeds_with_colon formConfig (Or.inr (by decide))⟩

/-- C13: with the header extractor, for every request whose method is none of GET,
HEAD, OPTIONS, TRACE and that does not carry the configured header: the extractor
returns the empty string without error; without CSRF cookie a token of length at
least 1 is generated and the request is answered with 403, whatever the random
source draws; and the downstream handler is called exactly when the request has a
CSRF cookie whose value is the empty string, every other request being answered
with 403. -/
theorem missing_header_accepts_only_empty_cookie (config : CSRFConfig) (mw : MiddlewareFunc)
    (hmw : CSRFWithConfig config = some mw) (key : GoString)
    (hex : csrfExtractor (csrfDefaults config) = some (csrfTokenFromHeader key))
    (next : HandlerFunc) (c : Context) (rand : Rand) (now : Time)
    (hm : c.request.Method ≠ GET ∧ c.request.Method ≠ HEAD ∧ c.request.Method ≠ OPTIONS ∧
      c.request.Method ≠ TRACE)
    (hheader : c.request.header key = none) :
    csrfTokenFromHeader key c = .ok [] ∧
    ∃ out, mw next c rand now = some out ∧
      (c.request.cookie (csrfDefaults config).CookieName = none →
        out.err = some (Error.httpError 403 (str "csrf token is invalid")) ∧
        ∃ token, Event.generate token ∈ out.trace ∧ 1 ≤ token.length) ∧
      (Event.next ∈ out.trace ↔
        c.request.cookie (csrfDefaults config).CookieName = some []) ∧
      (c.request.cookie (csrfDefaults config).CookieName ≠ some [] →
        out.err = some (Error.httpError 403 (str "csrf token is invalid")) ∧ out.ctx = c) ∧
      (c.request.cookie (csrfDefaults config).CookieName = some [] →
        (out.ctx, out.err) = next (csrfRespond (csrfDefaults config) [] now c)) := by
  obtain ⟨extractor0, hex0, rfl⟩ := CSRFWithConfig_eq config mw hmw
  rw [hex, Option.some.injEq] at hex0
  subst hex0
  have hunsafe := (isSafeMethod_eq_false_iff _).mpr hm
  have hext : csrfTokenFromHeader key c = .ok [] := by
    simp [csrfTokenFromHeader, Context.headerGet, hheader]
  refine ⟨hext, ?_⟩
  cases hc : c.request.cookie (csrfDefaults config).CookieName with
  | none =>
    obtain ⟨token, -, htok, hlen⟩ := csrfToken_generate (csrfDefaults config) c rand hc
    have hpos := csrfDefaults_TokenLength_pos config
    have hne : ([] : GoString) ≠ token := by
      intro h0
      rw [← h0] at hlen
      simp at hlen
      omega
    refine ⟨_, csrfHandler_reject _ _ next c rand _ now token _ _ _ htok
      (csrfCheck_mismatch _ c token hunsafe [] hext hne), ?_, ?_, ?_, ?_⟩
    · intro _
      exact ⟨rfl, token, by simp, by omega⟩
    · simp
    · intro _
      exact ⟨rfl, rfl⟩
    · intro h0
      simp at h0
  | some v =>
    have htok := csrfToken_cookie (csrfDefaults config) c rand v hc
    by_cases hv : v = []
    · subst hv
      refine ⟨_, csrfHandler_pass _ _ next c rand rand now [] [] _ htok
        (csrfCheck_match _ c [] hunsafe hext), ?_, ?_, ?_, ?_⟩
      · intro h0
        simp at h0
      · simp
      · intro h0
        simp at h0
      · intro _
        rfl
    · have hne : ([] : GoString) ≠ v := fun h0 => hv h0.symm
      refine ⟨_, csrfHandler_reject _ _ next c rand rand now v [] _ _ htok
        (csrfCheck_mismatch _ c v hunsafe [] hext hne), ?_, ?_, ?_, ?_⟩
      · intro h0
        simp at h0
      · simp [hv]
      · intro _
        exact ⟨rfl, rfl⟩
      · intro h0
        simp [hv] at h0

theorem missing_header_accepts_only_empty_cookie_witness :
    CSRFWithConfig zeroConfig = some zeroMiddleware ∧
    csrfExtractor (csrfDefaults zeroConfig) = some (csrfTokenFromHeader HeaderXCSRFToken) ∧
    (POST ≠ GET ∧ POST ≠ HEAD ∧ POST ≠ OPTIONS ∧ POST ≠ TRACE) ∧
    (sampleContext POST none none).request.header HeaderXCSRFToken = none ∧
    csrfTokenFromHeader HeaderXCSRFToken (sampleContext POST none none) = .ok [] ∧
    ∃ out, zeroMiddleware sampleNext (sampleContext POST none none) sampleRand 0 = some out ∧
      ((sampleContext POST none none).request.cookie (csrfDefaults zeroConfig).CookieName = none →
        out.err = some (Error.httpError 403 (str "csrf token is invalid")) ∧
        ∃ token, Event.generate token ∈ out.trace ∧ 1 ≤ token.length) ∧
      (Event.next ∈ out.trace ↔
        (sampleContext POST none none).request.cookie (csrfDefaults zeroConfig).CookieName =
          some []) ∧
      ((sampleContext POST none none).request.cookie (csrfDefaults zeroConfig).CookieName ≠
          some [] →
        out.err = some (Error.httpError 403 (str "csrf token is invalid")) ∧
        out.ctx = sampleContext POST none none) ∧
      ((sampleContext POST none none).request.cookie (csrfDefaults zeroConfig).CookieName =
          some [] →
        (out.ctx, out.err) =
          sampleNext (csrfRespond (csrfDefaults zeroConfig) [] 0 (sampleContext POST none none))) :=
  ⟨rfl, rfl, by decide, rfl,
    missing_header_accepts_only_empty_cookie zeroConfig zeroMiddleware rfl HeaderXCSRFToken rfl
      sampleNext (sampleContext POST none none) sampleRand 0 (by decide) rfl⟩

/-- C14: when the defaulted lookup is a text `tag` without `:`, a `:` and a rest,
the extractor built is bound to the rest up to its first `:` (what follows a
second `:` is dropped); it is the form extractor exactly when `tag` is `form`,
the query extractor exactly when `tag` is `query`, and the header extractor for
every other `tag`, and the middleware returned is the one of that extractor. -/
theorem extractor_selected_by_tag (config : CSRFConfig) (tag rest : GoString)
    (htag : colon ∉ tag)
    (hlookup : (csrfDefaults config).TokenLookup = tag ++ colon :: rest) :
    ∃ extractor, csrfExtractor (csrfDefaults config) = some extractor ∧
      CSRFWithConfig config =
        some (fun next => csrfHandler (csrfDefaults config) extractor next) ∧
      (extractor = csrfTokenFromForm (rest.takeWhile (fun b => b != colon)) ↔
        tag = str "form") ∧
      (extractor = csrfTokenFromQuery (rest.takeWhile (fun b => b != colon)) ↔
        tag = str "query") ∧
      (extractor = csrfTokenFromHeader (rest.takeWhile (fun b => b != colon)) ↔
        tag ≠ str "form" ∧ tag ≠ str "query") := by
  obtain ⟨ps, hps⟩ := splitOn_head colon rest
  have hsplit : splitOn colon (csrfDefaults config).TokenLookup =
      tag :: rest.takeWhile (fun b => b != colon) :: ps := by
    rw [hlookup, splitOn_append colon tag rest htag, hps]
  have hex := csrfExtractor_of_split (csrfDefaults config) _ _ ps hsplit
  have hfq : str "form" ≠ str "query" := by decide
  refine ⟨_, hex, CSRFWithConfig_of_extractor config _ hex, ?_, ?_, ?_⟩
  · by_cases h1 : tag = str "form"
    · simp [h1]
    · by_cases h2 : tag = str "query"
      · simp only [h1, h2, if_false, if_true, hfq.symm, iff_false]
        exact fun h => csrfTokenFromForm_ne_query _ _ h.symm
      · simp only [h1, h2, if_false, iff_false]
        exact fun h => csrfTokenFromForm_ne_header _ _ h.symm
  · by_cases h1 : tag = str "form"
    · simp only [h1, if_true, hfq, iff_false]
      exact csrfTokenFromForm_ne_query _ _
    · by_cases h2 : tag = str "query"
      · simp [h1, h2, hfq.symm]
      · simp only [h1, h2, if_false, iff_false]
        exact fun h => csrfTokenFromQuery_ne_header _ _ h.symm
  · by_cases h1 : tag = str "form"
    · subst h1
      rw [if_pos rfl]
      exact ⟨fun h => absurd h (csrfTokenFromForm_ne_header _ _), fun h => absurd rfl h.1⟩
    · by_cases h2 : tag = str "query"
      · subst h2
        rw [if_neg hfq.symm, if_pos rfl]
        exact ⟨fun h => absurd h (csrfTokenFromQuery_ne_header _ _), fun h => absurd rfl h.2⟩
      · simp [h1, h2]

theorem extractor_selected_by_tag_witness :
    colon ∉ str "Form" ∧
    (csrfDefaults upperFormConfig).TokenLookup = str "Form" ++ colon :: str "a:b" ∧
    (str "a:b").takeWhile (fun b => b != colon) = str "a" ∧
    (str "Form" ≠ str "form" ∧ str "Form" ≠ str "query") ∧
    ∃ extractor, csrfExtractor (csrfDefaults upperFormConfig) = some extractor ∧
      CSRFWithConfig upperFormConfig =
        some (fun next => csrfHandler (csrfDefaults upperFormConfig) extractor next) ∧
      (extractor = csrfTokenFromForm ((str "a:b").takeWhile (fun b => b != colon)) ↔
        str "Form" = str "form") ∧
      (extractor = csrfTokenFromQuery ((str "a:b").takeWhile (fun b => b != colon)) ↔
        str "Form" = str "query") ∧
      (extractor = csrfTokenFromHeader ((str "a:b").takeWhile (fun b => b != colon)) ↔
        str "Form" ≠ str "form" ∧ str "Form" ≠ str "query") :=
  ⟨by decide, by decide, by decide, by decide,
    extractor_selected_by_tag upperFormConfig (str "Form") (str "a:b") (by decide) (by decide)⟩

/-- C15: for every `strings.TrimSpace`, `check` returns `nil` exactly when the
trimmed name is non-empty, the trimmed mobile has 11 bytes and the trimmed
password is non-empty; otherwise it returns the error of the first failing field
in the order name, mobile, password; the fields examined up to the return are
left trimmed and the others as they were; and the error depends on the mobile
only through the length of its trimmed form. -/
theorem registerParams_check_spec (TrimSpace : GoString → GoString) (p : registerParams) :
    ((registerParams.check TrimSpace p).2 = none ↔
      TrimSpace p.Name ≠ [] ∧ (TrimSpace p.Mobile).length = 11 ∧ TrimSpace p.Password ≠ []) ∧
    (TrimSpace p.Name = [] →
      registerParams.check TrimSpace p =
        ({ Name := TrimSpace p.Name, Mobile := p.Mobile, Password := p.Password },
          some (Error.errorString (str "用户名不可为空")))) ∧
    (TrimSpace p.Name ≠ [] → (TrimSpace p.Mobile).length ≠ 11 →
      registerParams.check TrimSpace p =
        ({ Name := TrimSpace p.Name, Mobile := TrimSpace p.Mobile, Password := p.Password },
          some (Error.errorString (str "手机号不合法")))) ∧
    (TrimSpace p.Name ≠ [] → (TrimSpace p.Mobile).length = 11 → TrimSpace p.Password = [] →
      registerParams.check TrimSpace p =
        ({ Name := TrimSpace p.Name, Mobile := TrimSpace p.Mobile,
           Password := TrimSpace p.Password },
          some (Error.errorString (str "密码不可为空")))) ∧
    (TrimSpace p.Name ≠ [] → (TrimSpace p.Mobile).length = 11 → TrimSpace p.Password ≠ [] →
      registerParams.check TrimSpace p =
        ({ Name := TrimSpace p.Name, Mobile := TrimSpace p.Mobile,
           Password := TrimSpace p.Password }, none)) ∧
    (∀ q : registerParams, TrimSpace q.Name = TrimSpace p.Name →
      (TrimSpace q.Mobile).length = (TrimSpace p.Mobile).length →
      TrimSpace q.Password = TrimSpace p.Password →
      (registerParams.check TrimSpace q).2 = (registerParams.check TrimSpace p).2) := by
  have hmob : ∀ m : GoString, (m = [] ∨ m.length ≠ 11) ↔ m.length ≠ 11 := by
    intro m
    constructor
    · rintro (h | h)
      · rw [h]
        decide
      · exact h
    · exact Or.inr
  have hval : ∀ r : registerParams, (registerParams.check TrimSpace r).2 =
      if TrimSpace r.Name = [] then some (Error.errorString (str "用户名不可为空"))
      else if (TrimSpace r.Mobile).length ≠ 11 then some (Error.errorString (str "手机号不合法"))
      else if TrimSpace r.Password = [] then some (Error.errorString (str "密码不可为空"))
      else none := by
    intro r
    simp only [registerParams.check, hmob]
    split_ifs <;> rfl
  refine ⟨?_, ?_, ?_, ?_, ?_, ?_⟩
  · rw [hval]
    split_ifs with h1 h2 h3
    · simp [h1]
    · simp [h2]
    · simp [h3]
    · exact ⟨fun _ => ⟨h1, not_not.mp h2, h3⟩, fun _ => rfl⟩
  · intro h1
    simp [registerParams.check, h1]
  · intro h1 h2
    simp [registerParams.check, h1, h2]
  · intro h1 h2 h3
    have h4 : TrimSpace p.Mobile ≠ [] := by
      intro h0
      rw [h0] at h2
      simp at h2
    simp [registerParams.check, h1, h2, h3, h4]
  · intro h1 h2 h3
    have h4 : TrimSpace p.Mobile ≠ [] := by
      intro h0
      rw [h0] at h2
      simp at h2
    simp [registerParams.check, h1, h2, h3, h4]
  · intro q h1 h2 h3
    rw [hval, hval, h1, h2, h3]

/-- C16, the failing input: for a nil `*SError` held in the interface `error` and
a response that is not committed, neither type test succeeds with a non-nil
pointer, the last branch calls `err.Error()`, which dereferences the nil pointer,
and the handler panics instead of writing status 500; nothing is written. -/
theorem HTTPErrorHandler_nil_SError_panics :
    emptyContext.Committed = false ∧
    errorText (some Error.sErrorNil) = none ∧
    HTTPErrorHandler (some Error.sErrorNil) emptyContext = none :=
  ⟨rfl, rfl, rfl⟩

end Stone
